import Mathlib

/-!
Shallow embedding of the RAG-backend query pipeline
(`src/services/refusal_detector.py`, `src/services/citation_builder.py`,
`src/services/generation.py`, `src/services/embedding.py`,
`src/services/retrieval.py`, `src/api/query.py`) together with theorems
settling the specification claims about it.

Conventions of the embedding:
* Python `float` scores, thresholds and wall-clock times are modelled as `ℚ`
  (all the operations the code performs on them are order comparisons,
  sums and divisions, which `ℚ` models exactly).
* Python strings are modelled as `String` / `List Char`; the ASCII fragment
  of Python's `\s`, `\d`, `\w` character classes is used, which covers every
  string the pipeline manipulates.
* External network calls (Cohere embed, Qdrant search, Gemini generate,
  Postgres insert) are modelled by passing their outcome in as an argument
  and returning the request the code would send out.
-/

namespace RagBackend

/-! ## services/refusal_detector.py -/

/-- The `REFUSAL_KEYWORDS` constant of `RefusalDetector`. -/
def REFUSAL_KEYWORDS : List String :=
  [ "don\x27t have information"
  , "does not contain information"
  , "not contain sufficient information"
  , "cannot answer"
  , "outside the scope"
  , "not mentioned in"
  , "not covered in"
  , "insufficient information"
  , "unable to find information" ]

/-- Python `max(l)` on a non-empty list (`max` of the empty list raises;
the embedding returns `0` there, a case the code never reaches because it
tests emptiness first). -/
def pyMax (l : List ℚ) : ℚ :=
  match l with
  | [] => 0
  | x :: xs => xs.foldl max x

/-- `RefusalDetector.should_force_refusal`: refuse before calling the LLM
iff the score list is empty or its maximum is below the threshold. -/
def should_force_refusal (similarity_scores : List ℚ) (threshold : ℚ) : Bool :=
  if similarity_scores = [] then
    true
  else
    decide (pyMax similarity_scores < threshold)

/-- ASCII lower-casing, Python `str.lower` on the ASCII fragment. -/
def pyLowerChar (c : Char) : Char := c.toLower

/-- Python `str.lower`. -/
def pyLower (s : String) : String := ⟨s.data.map pyLowerChar⟩

/-- `RefusalDetector.is_refusal_response`: the lower-cased response contains
one of the refusal keywords (Python `keyword in response_lower`, i.e.
substring containment, modelled as `List.IsInfix` on the character lists). -/
def is_refusal_response (response_text : String) : Bool :=
  if response_text = "" then
    false
  else
    REFUSAL_KEYWORDS.any fun k => decide (k.data <:+: (pyLower response_text).data)

/-- `RefusalDetector.build_refusal_message`. -/
def build_refusal_message (query_mode : String) (reason : String) : String :=
  if query_mode = "selected-text" then
    "The selected text does not contain sufficient information to answer this question."
  else if reason = "low_similarity" then
    "I don\x27t have information about that topic in the book. Please try rephrasing your question or asking about content covered in the chapters."
  else if reason = "external_reference" then
    "I cannot answer questions that require information beyond the book\x27s content."
  else
    "I cannot find sufficient information in the book to answer this question."

theorem foldl_max_mem (xs : List ℚ) (x : ℚ) : xs.foldl max x ∈ x :: xs := by
  induction xs generalizing x with
  | nil => simp
  | cons y ys ih =>
    have h := ih (max x y)
    rcases List.mem_cons.mp h with h' | h'
    · rcases max_choice x y with hxy | hxy <;>
        simp only [List.foldl_cons] <;> rw [h', hxy] <;> simp
    · simp [List.foldl_cons, h']

theorem le_foldl_max (xs : List ℚ) (x : ℚ) : ∀ z ∈ x :: xs, z ≤ xs.foldl max x := by
  induction xs generalizing x with
  | nil => intro z hz; simp at hz; simp [hz]
  | cons y ys ih =>
    intro z hz
    simp only [List.foldl_cons]
    rcases List.mem_cons.mp hz with rfl | hz'
    · exact le_trans (le_max_left z y) (ih (max z y) (max z y) (by simp))
    · rcases List.mem_cons.mp hz' with rfl | hz'' <;>
        [ exact le_trans (le_max_right x z) (ih (max x z) (max x z) (by simp));
          exact ih (max x y) z (by simp [hz'']) ]

theorem pyMax_mem (x : ℚ) (xs : List ℚ) : pyMax (x :: xs) ∈ x :: xs :=
  foldl_max_mem xs x

theorem le_pyMax (x : ℚ) (xs : List ℚ) : ∀ z ∈ x :: xs, z ≤ pyMax (x :: xs) :=
  le_foldl_max xs x

/-! ### Claim C2 -/

/-- C2: for every list of similarity scores and every threshold `t`,
`should_force_refusal scores t` is `true` iff the list is empty or its
maximum element is below `t`.  The maximum is phrased spec-side: an element
of the list that bounds every element. -/
theorem should_force_refusal_iff_empty_or_max_below
    (scores : List ℚ) (t : ℚ) :
    should_force_refusal scores t = true ↔
      scores = [] ∨ ∃ m ∈ scores, (∀ x ∈ scores, x ≤ m) ∧ m < t := by
  unfold should_force_refusal
  rcases scores with _ | ⟨x, xs⟩
  · simp
  · constructor
    · intro h
      simp only [if_neg (List.cons_ne_nil x xs)] at h
      exact Or.inr ⟨pyMax (x :: xs), pyMax_mem x xs, le_pyMax x xs,
        of_decide_eq_true h⟩
    · rintro (h | ⟨m, hm, hmub, hmt⟩)
      · exact absurd h (List.cons_ne_nil x xs)
      · simp only [if_neg (List.cons_ne_nil x xs)]
        exact decide_eq_true (lt_of_le_of_lt (hmub _ (pyMax_mem x xs)) hmt)

/-! ## services/citation_builder.py -/

/-- ASCII fragment of Python's `\s` character class. -/
def isPySpace (c : Char) : Bool :=
  c = ' ' ∨ c = '\t' ∨ c = '\n' ∨ c = '\r' ∨ c = '\x0b' ∨ c = '\x0c'

/-- ASCII fragment of Python's `\w` character class. -/
def isPyWord (c : Char) : Bool :=
  c.isAlphanum ∨ c = '_'

/-- `re.sub(r"[-\s]+", "-", slug)`: every maximal run of hyphens/whitespace
becomes a single hyphen.  The flag records whether the scan is inside a run
whose hyphen has already been emitted. -/
def collapseAux : Bool → List Char → List Char
  | _, [] => []
  | inRun, c :: cs =>
    if isPySpace c ∨ c = '-' then
      if inRun then collapseAux true cs else '-' :: collapseAux true cs
    else
      c :: collapseAux false cs

/-- `re.sub(r"[-\s]+", "-", slug)`. -/
def collapseDashSpace (s : List Char) : List Char :=
  collapseAux false s

/-- Python `str.strip('-')`. -/
def stripDashes (s : List Char) : List Char :=
  ((s.dropWhile (· = '-')).reverse.dropWhile (· = '-')).reverse

/-- `CitationBuilder._generate_slug`: lower-case, drop characters outside
`[\w\s-]`, collapse hyphen/whitespace runs to a single hyphen, strip
leading/trailing hyphens. -/
def generate_slug (sectionTitle : String) : String :=
  let slug := sectionTitle.data.map Char.toLower
  let slug := slug.filter fun c => isPyWord c ∨ isPySpace c ∨ c = '-'
  let slug := collapseDashSpace slug
  ⟨stripDashes slug⟩

/-- Fuel-indexed worker for `removeAll`; the fuel (initially the string
length) only makes the recursion structural and never runs out. -/
def removeAllAux (pat : List Char) : ℕ → List Char → List Char
  | _, [] => []
  | 0, s => s
  | fuel + 1, c :: cs =>
    if pat ≠ [] ∧ pat.isPrefixOf (c :: cs) then
      removeAllAux pat fuel ((c :: cs).drop pat.length)
    else
      c :: removeAllAux pat fuel cs

/-- Python `str.replace(pat, "")`: remove every occurrence of `pat`,
scanning left to right (the code only calls it with non-empty patterns;
for an empty pattern the embedding is the identity). -/
def removeAll (pat s : List Char) : List Char :=
  removeAllAux pat s.length s

theorem removeAllAux_congr (pat : List Char) :
    ∀ fuel fuel' s, s.length ≤ fuel → s.length ≤ fuel' →
      removeAllAux pat fuel s = removeAllAux pat fuel' s := by
  intro fuel
  induction fuel with
  | zero =>
    intro fuel' s hs _
    rcases s with _ | ⟨c, cs⟩
    · cases fuel' <;> rfl
    · simp at hs
  | succ f ih =>
    intro fuel' s hs hs'
    rcases s with _ | ⟨c, cs⟩
    · cases fuel' <;> rfl
    · rcases fuel' with _ | f'
      · simp at hs'
      · simp only [removeAllAux]
        simp only [List.length_cons, Nat.succ_le_succ_iff] at hs hs'
        by_cases hcond : pat ≠ [] ∧ pat.isPrefixOf (c :: cs)
        · rw [if_pos hcond, if_pos hcond]
          have hlen : ((c :: cs).drop pat.length).length ≤ cs.length := by
            simp only [List.length_drop, List.length_cons]
            have hp : 1 ≤ pat.length := List.length_pos.mpr hcond.1
            omega
          exact ih f' _ (le_trans hlen hs) (le_trans hlen hs')
        · rw [if_neg hcond, if_neg hcond, ih f' cs hs hs']

theorem removeAll_cons (pat : List Char) (c : Char) (cs : List Char) :
    removeAll pat (c :: cs) =
      if pat ≠ [] ∧ pat.isPrefixOf (c :: cs) then
        removeAll pat ((c :: cs).drop pat.length)
      else
        c :: removeAll pat cs := by
  show removeAllAux pat (cs.length + 1) (c :: cs) = _
  simp only [removeAllAux]
  by_cases hcond : pat ≠ [] ∧ pat.isPrefixOf (c :: cs)
  · rw [if_pos hcond, if_pos hcond]
    apply removeAllAux_congr
    · simp only [List.length_drop, List.length_cons]
      have hp : 1 ≤ pat.length := List.length_pos.mpr hcond.1
      omega
    · exact le_refl _
  · rw [if_neg hcond, if_neg hcond]
    rfl

/-- Python `str.split("/")` (the separator is a single character, and empty
segments are kept, so `"".split("/") = [""]`). -/
def splitSlash : List Char → List (List Char)
  | [] => [[]]
  | c :: cs =>
    if c = '/' then
      [] :: splitSlash cs
    else
      match splitSlash cs with
      | [] => [[c]]
      | p :: ps => (c :: p) :: ps

/-- Python `"/".join(parts)`. -/
def joinSlash : List (List Char) → List Char
  | [] => []
  | [p] => p
  | p :: ps => p ++ '/' :: joinSlash ps

/-- `re.sub(r"^\d+-", "", filename)`: strip a leading run of digits followed
by a hyphen, if present. -/
def stripNumDash (s : List Char) : List Char :=
  let ds := s.takeWhile Char.isDigit
  if ds.isEmpty then s
  else
    match s.drop ds.length with
    | '-' :: rest => rest
    | _ => s

/-- Apply `f` to the last element of a list (`parts[-1] = f(parts[-1])`). -/
def updateLast (f : List Char → List Char) : List (List Char) → List (List Char)
  | [] => []
  | [p] => [f p]
  | p :: ps => p :: updateLast f ps

/-- `CitationBuilder._build_citation_url`.  Note that the code uses
`str.replace`, which removes every occurrence of `"docs/"` and `".md"`,
not only a leading/trailing one. -/
def build_citation_url (source_file : String) (section_slug : String) : String :=
  if source_file = "" then
    "#unknown-section"
  else
    "/" ++ (⟨joinSlash (updateLast stripNumDash (splitSlash
        (removeAll ".md".data (removeAll "docs/".data source_file.data))))⟩ : String)
      ++ "#" ++ section_slug

/-- Payload metadata of a retrieved chunk (`hit.payload` in
`db/qdrant.py`); fields the citation builder reads are `Option`s because
the code supplies defaults via `payload.get(key, default)`.
`sectionTitle` models the payload key `"section"` (a Lean keyword). -/
structure ChunkPayload where
  chapter : Option String
  sectionTitle : Option String
  section_slug : Option String
  source_file : Option String
  content : Option String
  chapter_number : Option Int
deriving DecidableEq, Repr

/-- A retrieved chunk as returned by `QdrantClientWrapper.search`:
`{"id": str(hit.id), "score": hit.score, "payload": hit.payload}`. -/
structure Chunk where
  id : String
  score : ℚ
  payload : ChunkPayload
deriving DecidableEq, Repr

/-- The grouping key `(chapter, section, section_slug, source_file)`. -/
abbrev GroupKey := String × String × String × String

/-- The grouping key of a chunk, with the defaults
`payload.get("chapter", "Unknown Chapter")`,
`payload.get("section", "Unknown Section")`,
`payload.get("section_slug", _generate_slug(section))`,
`payload.get("source_file", "")`. -/
def groupKey (c : Chunk) : GroupKey :=
  let chapter := c.payload.chapter.getD "Unknown Chapter"
  let sectionTitle := c.payload.sectionTitle.getD "Unknown Section"
  let section_slug := c.payload.section_slug.getD (generate_slug sectionTitle)
  let source_file := c.payload.source_file.getD ""
  (chapter, sectionTitle, section_slug, source_file)

/-- `section_groups[section_key].append(chunk)` on an insertion-ordered
association list (Python dicts preserve first-insertion order of keys). -/
def insertGroup (groups : List (GroupKey × List Chunk)) (k : GroupKey) (c : Chunk) :
    List (GroupKey × List Chunk) :=
  match groups with
  | [] => [(k, [c])]
  | (k', cs) :: rest =>
    if k' = k then (k', cs ++ [c]) :: rest else (k', cs) :: insertGroup rest k c

/-- The grouping loop of `build_citations`. -/
def buildGroups (chunks : List Chunk) : List (GroupKey × List Chunk) :=
  chunks.foldl (fun g c => insertGroup g (groupKey c) c) []

/-- A citation object emitted by `build_citations`. -/
structure Citation where
  chapter : String
  sectionTitle : String
  url : String
  chunk_count : ℕ
  chunk_ids : List String
  max_similarity : ℚ
deriving DecidableEq, Repr

/-- `max(chunk.get("score", 0.0) for chunk in group_chunks)` (groups are
never empty; search results always carry a score). -/
def maxScore (group_chunks : List Chunk) : ℚ :=
  pyMax (group_chunks.map Chunk.score)

/-- The citation built for one group. -/
def citationOfGroup (k : GroupKey) (group_chunks : List Chunk) : Citation :=
  { chapter := k.1
  , sectionTitle := k.2.1
  , url := build_citation_url k.2.2.2 k.2.2.1
  , chunk_count := group_chunks.length
  , chunk_ids := group_chunks.map Chunk.id
  , max_similarity := maxScore group_chunks }

/-- Value of digit characters, `int(digits)`. -/
def digitsToNat (ds : List Char) : ℕ :=
  ds.foldl (fun n c => 10 * n + (c.toNat - 48)) 0

/-- Match `Module\s+(\d+)` (case-insensitively) at the head of the list. -/
def matchModuleAt (cs : List Char) : Option ℕ :=
  if (cs.take 6).map Char.toLower = "module".data then
    let rest := cs.drop 6
    let ws := rest.takeWhile isPySpace
    if ws.isEmpty then none
    else
      let ds := (rest.drop ws.length).takeWhile Char.isDigit
      if ds.isEmpty then none else some (digitsToNat ds)
  else
    none

/-- `re.search(r"Module\s+(\d+)", chapter, re.IGNORECASE)`: value of the
captured digits at the leftmost match. -/
def findModuleNumber : List Char → Option ℕ
  | [] => none
  | c :: cs =>
    match matchModuleAt (c :: cs) with
    | some n => some n
    | none => findModuleNumber cs

/-- `CitationBuilder._extract_chapter_order`. -/
def extract_chapter_order (chapter : String) : ℕ × String :=
  match findModuleNumber chapter.data with
  | some n => (n, chapter)
  | none => (999, chapter)

/-- The comparison used by `citations.sort(key=...)`: ascending
lexicographic order on `(module_number, chapter)` (Python compares the
key tuples with `<`; its sort is stable, as is `List.mergeSort`). -/
def chapterOrderLe (a b : Citation) : Bool :=
  let ka := extract_chapter_order a.chapter
  let kb := extract_chapter_order b.chapter
  if ka.1 < kb.1 then true
  else if kb.1 < ka.1 then false
  else !decide (kb.2 < ka.2)

/-- `CitationBuilder.build_citations`. -/
def build_citations (chunks : List Chunk) : List Citation :=
  if chunks = [] then
    []
  else
    (((buildGroups chunks).map fun kg => citationOfGroup kg.1 kg.2).mergeSort
      chapterOrderLe)

/-! ### Claim C3: grouping lemmas -/

/-- The distinct elements of a list in order of first occurrence (Python
dict key order). -/
def dedupFirst {α : Type _} [DecidableEq α] : List α → List α
  | [] => []
  | x :: xs => x :: (dedupFirst xs).filter fun y => y ≠ x

theorem mem_dedupFirst {α : Type _} [DecidableEq α] (a : α) :
    ∀ l : List α, a ∈ dedupFirst l ↔ a ∈ l
  | [] => Iff.rfl
  | x :: xs => by
    simp only [dedupFirst, List.mem_cons, List.mem_filter, mem_dedupFirst a xs,
      decide_eq_true_eq]
    by_cases hax : a = x
    · simp [hax]
    · simp [hax]

theorem nodup_dedupFirst {α : Type _} [DecidableEq α] :
    ∀ l : List α, (dedupFirst l).Nodup
  | [] => List.nodup_nil
  | x :: xs => by
    simp only [dedupFirst, List.nodup_cons]
    refine ⟨fun hx => ?_, (nodup_dedupFirst xs).filter _⟩
    have hne := (List.mem_filter.mp hx).2
    simp at hne

theorem dedupFirst_concat {α : Type _} [DecidableEq α] (y : α) :
    ∀ l : List α, dedupFirst (l ++ [y]) =
      if y ∈ l then dedupFirst l else dedupFirst l ++ [y]
  | [] => by simp [dedupFirst]
  | x :: xs => by
    have hrec := dedupFirst_concat y xs
    rw [List.cons_append]
    simp only [dedupFirst]
    rw [hrec]
    by_cases hmem : y ∈ xs
    · rw [if_pos hmem, if_pos (List.mem_cons_of_mem x hmem)]
    · rw [if_neg hmem, List.filter_append]
      by_cases hyx : y = x
      · subst hyx
        rw [if_pos (List.mem_cons_self y xs)]
        simp
      · rw [if_neg (by simp [hyx, hmem] : ¬ y ∈ x :: xs)]
        simp [hyx]

/-- The chunks of `chunks` whose grouping key is `k`, in input order. -/
def groupOf (chunks : List Chunk) (k : GroupKey) : List Chunk :=
  chunks.filter fun c => groupKey c = k

/-- The distinct grouping keys of `chunks`, in order of first occurrence. -/
def distinctKeys (chunks : List Chunk) : List GroupKey :=
  dedupFirst (chunks.map groupKey)

theorem mem_distinctKeys (k : GroupKey) (chunks : List Chunk) :
    k ∈ distinctKeys chunks ↔ k ∈ chunks.map groupKey :=
  mem_dedupFirst k (chunks.map groupKey)

theorem nodup_distinctKeys (chunks : List Chunk) : (distinctKeys chunks).Nodup :=
  nodup_dedupFirst (chunks.map groupKey)

theorem map_update_not_mem (k : GroupKey) (c : Chunk) :
    ∀ g : List (GroupKey × List Chunk), k ∉ g.map Prod.fst →
      (g.map fun p => if p.1 = k then (p.1, p.2 ++ [c]) else p) = g
  | [] => fun _ => rfl
  | (k', cs) :: rest => by
    intro h
    simp only [List.map_cons, List.mem_cons] at h
    push_neg at h
    have hne : ¬ (k' = k) := by
      intro hh
      exact h.1 hh.symm
    simp only [List.map_cons, if_neg hne, map_update_not_mem k c rest h.2]

theorem insertGroup_not_mem (k : GroupKey) (c : Chunk) :
    ∀ g : List (GroupKey × List Chunk), k ∉ g.map Prod.fst →
      insertGroup g k c = g ++ [(k, [c])]
  | [] => fun _ => rfl
  | (k', cs) :: rest => by
    intro h
    simp only [List.map_cons, List.mem_cons] at h
    push_neg at h
    have hne : ¬ (k' = k) := by
      intro hh
      exact h.1 hh.symm
    have h1 : insertGroup ((k', cs) :: rest) k c = (k', cs) :: insertGroup rest k c := by
      simp [insertGroup, hne]
    rw [h1, insertGroup_not_mem k c rest h.2, List.cons_append]

theorem insertGroup_mem (k : GroupKey) (c : Chunk) :
    ∀ g : List (GroupKey × List Chunk), (g.map Prod.fst).Nodup →
      k ∈ g.map Prod.fst →
      insertGroup g k c = g.map fun p => if p.1 = k then (p.1, p.2 ++ [c]) else p
  | [] => by intro _ h; simp at h
  | (k', cs) :: rest => by
    intro hnd hmem
    simp only [List.map_cons, List.nodup_cons] at hnd
    by_cases hk : k' = k
    · subst hk
      have h1 : insertGroup ((k', cs) :: rest) k' c = (k', cs ++ [c]) :: rest := by
        simp [insertGroup]
      rw [h1, List.map_cons, if_pos rfl, map_update_not_mem k' c rest hnd.1]
    · have hkrest : k ∈ rest.map Prod.fst := by
        simp only [List.map_cons, List.mem_cons] at hmem
        rcases hmem with h | h
        · exact absurd h.symm hk
        · exact h
      have h1 : insertGroup ((k', cs) :: rest) k c = (k', cs) :: insertGroup rest k c := by
        simp [insertGroup, hk]
      rw [h1, List.map_cons, if_neg hk, insertGroup_mem k c rest hnd.2 hkrest]

theorem buildGroups_concat (l : List Chunk) (c : Chunk) :
    buildGroups (l ++ [c]) = insertGroup (buildGroups l) (groupKey c) c := by
  unfold buildGroups
  rw [List.foldl_append]
  rfl

theorem keys_of_mapped (dk : List GroupKey) (f : GroupKey → List Chunk) :
    ((dk.map fun k => (k, f k)).map Prod.fst) = dk := by
  induction dk with
  | nil => rfl
  | cons a t ih => simp only [List.map_cons, ih]

theorem buildGroups_eq (chunks : List Chunk) :
    buildGroups chunks = (distinctKeys chunks).map fun k => (k, groupOf chunks k) := by
  induction chunks using List.reverseRecOn with
  | nil => rfl
  | append_singleton l c ih =>
    rw [buildGroups_concat, ih]
    have hkeys : (((distinctKeys l).map fun k => (k, groupOf l k)).map Prod.fst)
        = distinctKeys l := keys_of_mapped _ _
    by_cases hmem : groupKey c ∈ l.map groupKey
    · have hnd : (((distinctKeys l).map fun k => (k, groupOf l k)).map Prod.fst).Nodup := by
        rw [hkeys]
        exact nodup_distinctKeys l
      have hm : groupKey c ∈ ((distinctKeys l).map fun k => (k, groupOf l k)).map Prod.fst := by
        rw [hkeys]
        exact (mem_distinctKeys _ _).mpr hmem
      have hdk : distinctKeys (l ++ [c]) = distinctKeys l := by
        unfold distinctKeys
        rw [List.map_append, List.map_singleton,
          dedupFirst_concat (groupKey c) (l.map groupKey), if_pos hmem]
      rw [insertGroup_mem _ _ _ hnd hm, List.map_map, hdk]
      have hfun : ((fun p : GroupKey × List Chunk =>
            if p.1 = groupKey c then (p.1, p.2 ++ [c]) else p) ∘
            fun k => (k, groupOf l k)) =
          fun k => (k, groupOf (l ++ [c]) k) := by
        funext k
        show (if k = groupKey c then (k, groupOf l k ++ [c]) else (k, groupOf l k))
            = (k, groupOf (l ++ [c]) k)
        by_cases hk : k = groupKey c
        · subst hk
          rw [if_pos rfl]
          simp [groupOf, List.filter_append]
        · have hk' : ¬ groupKey c = k := by
            intro hh
            exact hk hh.symm
          rw [if_neg hk]
          simp [groupOf, List.filter_append, hk']
      rw [hfun]
    · have hm : groupKey c ∉ ((distinctKeys l).map fun k => (k, groupOf l k)).map Prod.fst := by
        rw [hkeys]
        exact fun hin => hmem ((mem_distinctKeys _ _).mp hin)
      have hdk : distinctKeys (l ++ [c]) = distinctKeys l ++ [groupKey c] := by
        unfold distinctKeys
        rw [List.map_append, List.map_singleton,
          dedupFirst_concat (groupKey c) (l.map groupKey), if_neg hmem]
      rw [insertGroup_not_mem _ _ _ hm, hdk, List.map_append, List.map_singleton]
      congr 1
      · apply List.map_congr_left
        intro k hk
        have hkne : ¬ groupKey c = k := by
          intro hkk
          exact hmem (hkk ▸ (mem_distinctKeys _ _).mp hk)
        simp [groupOf, List.filter_append, hkne]
      · have hnil : groupOf l (groupKey c) = [] := by
          apply List.filter_eq_nil_iff.mpr
          intro a ha hak
          apply hmem
          have hak2 : groupKey a = groupKey c := by simpa using hak
          rw [← hak2]
          exact List.mem_map_of_mem groupKey ha
        have hgc : groupOf (l ++ [c]) (groupKey c) = [c] := by
          unfold groupOf
          rw [List.filter_append]
          have h1 : List.filter (fun a => decide (groupKey a = groupKey c)) l = [] := hnil
          rw [h1]
          simp
        rw [hgc]

theorem pyMax_mem_of_ne_nil (l : List ℚ) (h : l ≠ []) : pyMax l ∈ l := by
  rcases l with _ | ⟨x, xs⟩
  · exact absurd rfl h
  · exact pyMax_mem x xs

theorem le_pyMax_of_mem (l : List ℚ) (z : ℚ) (hz : z ∈ l) : z ≤ pyMax l := by
  rcases l with _ | ⟨x, xs⟩
  · simp at hz
  · exact le_pyMax x xs z hz

/-- C3: `build_citations` emits exactly one citation per distinct grouping
key `(chapter, section, section_slug, source_file)` occurring in the input
(as a permutation of one citation per first-occurrence-ordered distinct
key), and for each group the citation carries `chunk_count = |group|`,
`chunk_ids` = the members' ids, and `max_similarity` = the maximum score of
the group (an element of the group's scores bounding all of them). -/
theorem build_citations_one_per_group (chunks : List Chunk) :
    (build_citations chunks).Perm
      ((distinctKeys chunks).map fun k =>
        { chapter := k.1
        , sectionTitle := k.2.1
        , url := build_citation_url k.2.2.2 k.2.2.1
        , chunk_count := (groupOf chunks k).length
        , chunk_ids := (groupOf chunks k).map Chunk.id
        , max_similarity := maxScore (groupOf chunks k) : Citation }) ∧
    (distinctKeys chunks).Nodup ∧
    (∀ k, k ∈ distinctKeys chunks ↔ k ∈ chunks.map groupKey) ∧
    (build_citations chunks).length = (distinctKeys chunks).length ∧
    (∀ k, k ∈ distinctKeys chunks →
      maxScore (groupOf chunks k) ∈ (groupOf chunks k).map Chunk.score ∧
      ∀ s ∈ (groupOf chunks k).map Chunk.score, s ≤ maxScore (groupOf chunks k)) := by
  have hperm : (build_citations chunks).Perm
      ((distinctKeys chunks).map fun k =>
        { chapter := k.1
        , sectionTitle := k.2.1
        , url := build_citation_url k.2.2.2 k.2.2.1
        , chunk_count := (groupOf chunks k).length
        , chunk_ids := (groupOf chunks k).map Chunk.id
        , max_similarity := maxScore (groupOf chunks k) : Citation }) := by
    unfold build_citations
    by_cases hnil : chunks = []
    · subst hnil
      simp [distinctKeys, dedupFirst]
    · rw [if_neg hnil]
      refine (List.mergeSort_perm _ _).trans ?_
      rw [buildGroups_eq, List.map_map]
      exact List.Perm.refl _
  refine ⟨hperm, nodup_dedupFirst _, fun k => mem_dedupFirst k _,
    by rw [hperm.length_eq, List.length_map], ?_⟩
  intro k hk
  have hex : ∃ c ∈ chunks, groupKey c = k := by
    have := (mem_dedupFirst k _).mp hk
    simpa using this
  rcases hex with ⟨c, hc, hck⟩
  have hcg : c ∈ groupOf chunks k := by
    simp only [groupOf, List.mem_filter, decide_eq_true_eq]
    exact ⟨hc, hck⟩
  have hne : (groupOf chunks k).map Chunk.score ≠ [] := by
    intro hcon
    rw [List.map_eq_nil_iff] at hcon
    rw [hcon] at hcg
    simp at hcg
  exact ⟨pyMax_mem_of_ne_nil _ hne, fun s hs => le_pyMax_of_mem _ s hs⟩

/-! ### Claim C4 -/

/-- Strip only a *leading* `"docs/"` prefix (claim wording). -/
def stripLeadingDocs (s : List Char) : List Char :=
  if "docs/".data.isPrefixOf s then s.drop 5 else s

/-- Strip only a *trailing* `".md"` suffix (claim wording). -/
def stripTrailingMd (s : List Char) : List Char :=
  if ".md".data.isSuffixOf s then s.take (s.length - 3) else s

/-- The URL builder as the claim describes it (for comparison with
`build_citation_url`, which the code implements with `str.replace`):
strip only a leading `"docs/"` prefix and only a trailing `".md"` suffix,
then strip `^\d+-` from the final path component and emit
`/{joined-path}#{section_slug}`; for empty `source_file` emit
`"#unknown-section"`. -/
def claim_build_citation_url (source_file : String) (section_slug : String) : String :=
  if source_file = "" then
    "#unknown-section"
  else
    "/" ++ (⟨joinSlash (updateLast stripNumDash (splitSlash
        (stripTrailingMd (stripLeadingDocs source_file.data))))⟩ : String)
      ++ "#" ++ section_slug

/-- C4 counterexample: on `source_file = "a/docs/b.md.md"` the code removes
the interior `"docs/"` and both `".md"` occurrences, yielding `"/a/b#s"`,
while the claim's strip-leading-prefix / strip-trailing-suffix description
yields `"/a/docs/b.md#s"`; the claim is therefore false at this input. -/
theorem build_citation_url_counterexample :
    build_citation_url "a/docs/b.md.md" "s" = "/a/b#s" ∧
    claim_build_citation_url "a/docs/b.md.md" "s" = "/a/docs/b.md#s" ∧
    build_citation_url "a/docs/b.md.md" "s" ≠
      claim_build_citation_url "a/docs/b.md.md" "s" :=
  ⟨by decide, by decide, by decide⟩

theorem removeAll_of_not_infix (pat : List Char) :
    ∀ s : List Char, ¬ pat <:+: s → removeAll pat s = s
  | [] => fun _ => rfl
  | c :: cs => fun h => by
    rw [removeAll_cons]
    have hnc : ¬ (pat ≠ [] ∧ pat.isPrefixOf (c :: cs)) := by
      rintro ⟨_, hp⟩
      exact h (List.IsPrefix.isInfix (List.isPrefixOf_iff_prefix.mp hp))
    rw [if_neg hnc,
      removeAll_of_not_infix pat cs (fun hinf => h (List.infix_cons hinf))]

theorem removeAll_append_left (pat rest : List Char) (hne : pat ≠ []) :
    removeAll pat (pat ++ rest) = removeAll pat rest := by
  rcases pat with _ | ⟨p, ps⟩
  · exact absurd rfl hne
  · rw [List.cons_append, removeAll_cons]
    have hc : (p :: ps) ≠ [] ∧ (p :: ps).isPrefixOf (p :: (ps ++ rest)) := by
      refine ⟨hne, List.isPrefixOf_iff_prefix.mpr ?_⟩
      rw [← List.cons_append]
      exact List.prefix_append _ _
    rw [if_pos hc]
    congr 1
    rw [← List.cons_append]
    exact List.drop_left _ _

theorem removeAll_concat_pat (pat : List Char) (hne : pat ≠ []) :
    ∀ core : List Char, ¬ pat <:+: (core ++ pat.dropLast) →
      removeAll pat (core ++ pat) = core
  | [] => fun _ => by
    have h := removeAll_append_left pat [] hne
    rw [List.append_nil] at h
    rw [List.nil_append, h]
    rfl
  | c :: core' => fun h => by
    rw [List.cons_append, removeAll_cons]
    have hplen : 1 ≤ pat.length := List.length_pos.mpr hne
    have hnp : ¬ (pat ≠ [] ∧ pat.isPrefixOf (c :: (core' ++ pat))) := by
      rintro ⟨_, hp⟩
      apply h
      have hpre : pat <+: (c :: core') ++ pat := by
        rw [List.cons_append]
        exact List.isPrefixOf_iff_prefix.mp hp
      have htake : ((c :: core') ++ pat).take ((c :: core').length + (pat.length - 1))
          = (c :: core') ++ pat.dropLast := by
        rw [List.take_append, List.dropLast_eq_take]
      have hpre2 : pat <+: (c :: core') ++ pat.dropLast := by
        rw [← htake]
        exact List.prefix_take_iff.mpr ⟨hpre, by
          simp only [List.length_cons]
          omega⟩
      rw [List.cons_append]
      exact hpre2.isInfix
    rw [if_neg hnp,
      removeAll_concat_pat pat hne core' (fun hinf => h (by
        rw [List.cons_append]
        exact List.infix_cons hinf))]

/-- C4 (amended): the code removes *every* occurrence of `"docs/"` and
`".md"` from `source_file` (see the counterexample); on paths of the shape
`"docs/" ++ core ++ ".md"` in which those are the only occurrences, that
coincides with the claim's strip-leading-prefix / strip-trailing-suffix
description, and the empty `source_file` yields `"#unknown-section"`. -/
theorem build_citation_url_amended (core : List Char) (slug : String)
    (hd : ¬ ("docs/".data <:+: (core ++ ".md".data)))
    (hm : ¬ (".md".data <:+: (core ++ ".md".data.dropLast))) :
    build_citation_url ⟨"docs/".data ++ core ++ ".md".data⟩ slug
      = claim_build_citation_url ⟨"docs/".data ++ core ++ ".md".data⟩ slug ∧
    build_citation_url "" slug = "#unknown-section" := by
  refine ⟨?_, rfl⟩
  have hnestr : (⟨"docs/".data ++ core ++ ".md".data⟩ : String) ≠ "" := by
    intro hcon
    have hdata : "docs/".data ++ core ++ ".md".data = "".data :=
      congrArg String.data hcon
    simp at hdata
  unfold build_citation_url claim_build_citation_url
  rw [if_neg hnestr, if_neg hnestr]
  have hcode : removeAll ".md".data (removeAll "docs/".data
      ((⟨"docs/".data ++ core ++ ".md".data⟩ : String).data)) = core := by
    show removeAll ".md".data
      (removeAll "docs/".data ("docs/".data ++ core ++ ".md".data)) = core
    rw [List.append_assoc, removeAll_append_left _ _ (by decide),
      removeAll_of_not_infix _ _ hd]
    exact removeAll_concat_pat ".md".data (by decide) core hm
  have hclaim : stripTrailingMd (stripLeadingDocs
      ((⟨"docs/".data ++ core ++ ".md".data⟩ : String).data)) = core := by
    show stripTrailingMd (stripLeadingDocs ("docs/".data ++ core ++ ".md".data)) = core
    have h1 : stripLeadingDocs ("docs/".data ++ core ++ ".md".data)
        = core ++ ".md".data := by
      unfold stripLeadingDocs
      rw [if_pos (List.isPrefixOf_iff_prefix.mpr (by
        rw [List.append_assoc]
        exact List.prefix_append _ _))]
      rw [List.append_assoc]
      exact List.drop_left' rfl
    rw [h1]
    unfold stripTrailingMd
    rw [if_pos (List.isSuffixOf_iff_suffix.mpr (List.suffix_append _ _))]
    apply List.take_left'
    simp
  rw [hcode, hclaim]

/-- C4 witness: the amended theorem evaluated at the repository's canonical
example path, whose `"docs/"` and `".md"` occur only as prefix/suffix. -/
theorem build_citation_url_amended_witness :
    (¬ ("docs/".data <:+:
      ("chapters/module-0-foundations/04-locomotion-motor-control".data
        ++ ".md".data))) ∧
    (¬ (".md".data <:+:
      ("chapters/module-0-foundations/04-locomotion-motor-control".data
        ++ ".md".data.dropLast))) ∧
    (build_citation_url
        ⟨"docs/".data
          ++ "chapters/module-0-foundations/04-locomotion-motor-control".data
          ++ ".md".data⟩ "locomotion-motor-control"
      = claim_build_citation_url
        ⟨"docs/".data
          ++ "chapters/module-0-foundations/04-locomotion-motor-control".data
          ++ ".md".data⟩ "locomotion-motor-control" ∧
    build_citation_url "" "locomotion-motor-control" = "#unknown-section") :=
  ⟨by decide, by decide,
    build_citation_url_amended
      "chapters/module-0-foundations/04-locomotion-motor-control".data
      "locomotion-motor-control" (by decide) (by decide)⟩

/-! ## config/prompts.py -/

/-- `payload.get('chapter_number', '?')` rendered into the f-string. -/
def chapterNumStr (o : Option Int) : String :=
  match o with
  | some n => toString n
  | none => "?"

/-- One entry of `format_retrieved_chunks`:
`[Source i - Chapter c, section]\n{content}\n` built by concatenation. -/
def format_chunk_entry (i : ℕ) (c : Chunk) : String :=
  "[Source " ++ toString i ++ " - Chapter " ++ chapterNumStr c.payload.chapter_number
    ++ ", " ++ c.payload.sectionTitle.getD "Unknown" ++ "]\n"
    ++ c.payload.content.getD "" ++ "\n"

/-- Python `"\n".join(entries)`. -/
def joinNewline : List String → String
  | [] => ""
  | [s] => s
  | s :: rest => s ++ "\n" ++ joinNewline rest

/-- `config/prompts.py format_retrieved_chunks`: enumerate the chunks from
1 and join the formatted entries with newlines. -/
def format_retrieved_chunks (chunks : List Chunk) : String :=
  joinNewline ((List.enumFrom 1 chunks).map fun p => format_chunk_entry p.1 p.2)

/-- `config/prompts.py format_system_prompt`: the `SYSTEM_PROMPT_TEMPLATE`
with the three placeholders substituted (written as concatenation). -/
def format_system_prompt (book_title : String) (retrieved_chunks : String)
    (user_query : String) : String :=
  "You are a helpful educational assistant for students reading \"" ++ book_title
    ++ "\".\n\nYour task is to answer student questions ONLY using the provided context from the book.\n\nRules:\n1. Answer ONLY from the context provided below\n2. Include source references in your answer (chapter and section)\n3. If the context doesn\x27t contain the answer, respond: \"I don\x27t have enough information in the retrieved sections to answer this question accurately. Could you try rephrasing or asking about a topic covered in the book?\"\n4. Do NOT use external knowledge or make assumptions\n5. Keep answers concise (2-3 paragraphs maximum)\n6. Maintain an encouraging, educational tone\n\nContext:\n"
    ++ retrieved_chunks ++ "\n\nStudent Question: " ++ user_query ++ "\n\nAnswer:"

/-! ## services/generation.py -/

/-- The generation settings the service reads at construction
(`model_name`, `max_tokens`, `temperature`). -/
structure GenConfig where
  model_name : String
  max_tokens : ℕ
  temperature : ℚ
deriving DecidableEq, Repr

/-- The circuit-breaker fields of `GenerationService`
(`circuit_breaker_failures`, `circuit_breaker_reset_time`); the threshold
is the constant 5. -/
structure CBState where
  circuit_breaker_failures : ℕ
  circuit_breaker_reset_time : Option ℚ
deriving DecidableEq, Repr

/-- `circuit_breaker_threshold = 5`. -/
def circuit_breaker_threshold : ℕ := 5

/-- The state after `__init__`. -/
def initCBState : CBState := ⟨0, none⟩

/-- `GenerationService._is_circuit_broken`: returns whether the circuit is
open; when the reset time has passed it also clears the counter and the
reset time (the method mutates `self`). -/
def is_circuit_broken (now : ℚ) (s : CBState) : Bool × CBState :=
  if circuit_breaker_threshold ≤ s.circuit_breaker_failures then
    match s.circuit_breaker_reset_time with
    | some t =>
      if t ≤ now then (false, ⟨0, none⟩) else (true, s)
    | none => (true, s)
  else
    (false, s)

/-- `GenerationService._increment_circuit_breaker`. -/
def increment_circuit_breaker (now : ℚ) (s : CBState) : CBState :=
  let failures := s.circuit_breaker_failures + 1
  if circuit_breaker_threshold ≤ failures then
    ⟨failures, some (now + 60)⟩
  else
    ⟨failures, s.circuit_breaker_reset_time⟩

/-- The `generation_params` dict of a generation result. -/
structure GenerationParams where
  model : String
  temperature : ℚ
  max_tokens : ℕ
  system_prompt_version : String
  prompt_token_count : ℕ
  completion_token_count : ℕ
deriving DecidableEq, Repr

/-- The dict returned by `generate_response`. -/
structure GenerationResult where
  response_text : String
  generation_params : GenerationParams
  latency_ms : ℕ
deriving DecidableEq, Repr

/-- Outcome of the external Gemini call, abstracting the retry loop:
`none` stands for "every attempt raised", `some` carries the successful
response's text, usage metadata and measured latency. -/
structure LlmSuccess where
  text : String
  prompt_token_count : ℕ
  candidates_token_count : ℕ
  latency_ms : ℕ
deriving DecidableEq, Repr

/-- The request `client.models.generate_content(...)` is called with. -/
structure LlmRequest where
  model : String
  contents : String
  temperature : ℚ
  max_output_tokens : ℕ
deriving DecidableEq, Repr

/-- Python `str.strip()`. -/
def pyStrip (s : String) : String :=
  ⟨((s.data.dropWhile isPySpace).reverse.dropWhile isPySpace).reverse⟩

/-- `GenerationService._generate_insufficient_context_response`. -/
def insufficient_context_response : GenerationResult :=
  { response_text := "I don\x27t have enough information in the retrieved sections to answer this question accurately. Could you try rephrasing or asking about a topic covered in the book?"
  , generation_params :=
    { model := "fallback"
    , temperature := 0
    , max_tokens := 0
    , system_prompt_version := "v1.0"
    , prompt_token_count := 0
    , completion_token_count := 0 }
  , latency_ms := 0 }

/-- `GenerationService.generate_response`.  The external call (with its
retry loop) is abstracted into `llm`; the result is the returned dict or
the raised exception's message, together with the circuit-breaker state
after the call and the request sent to the provider (`none` when the
provider was never contacted). -/
def generate_response (cfg : GenConfig) (now : ℚ) (user_query : String)
    (retrieved_chunks : List Chunk) (book_title : String)
    (llm : Option LlmSuccess) (s : CBState) :
    Except String GenerationResult × CBState × Option LlmRequest :=
  let checked := is_circuit_broken now s
  if checked.1 then
    ( Except.error "Circuit breaker open: Too many consecutive failures. Please try again later."
    , checked.2, none)
  else if retrieved_chunks = [] then
    (Except.ok insufficient_context_response, checked.2, none)
  else
    let full_prompt :=
      format_system_prompt book_title (format_retrieved_chunks retrieved_chunks)
          user_query
        ++ "\n\nUser Question: " ++ user_query
    let request : LlmRequest :=
      { model := cfg.model_name
      , contents := full_prompt
      , temperature := cfg.temperature
      , max_output_tokens := cfg.max_tokens }
    match llm with
    | some ok =>
      ( Except.ok
          { response_text := pyStrip ok.text
          , generation_params :=
            { model := cfg.model_name
            , temperature := cfg.temperature
            , max_tokens := cfg.max_tokens
            , system_prompt_version := "v1.0"
            , prompt_token_count := ok.prompt_token_count
            , completion_token_count := ok.candidates_token_count }
          , latency_ms := ok.latency_ms }
      , { checked.2 with circuit_breaker_failures := 0 }, some request)
    | none =>
      ( Except.error "API error after 3 attempts"
      , increment_circuit_breaker now checked.2, some request)

/-- Invariant of the breaker state: the counter never exceeds 5 and the
reset time is set exactly while the counter is at 5. -/
def CBInv (s : CBState) : Prop :=
  s.circuit_breaker_failures ≤ 5 ∧
    (s.circuit_breaker_reset_time.isSome ↔ s.circuit_breaker_failures = 5)

theorem is_circuit_broken_closed (now : ℚ) (s : CBState)
    (h : s.circuit_breaker_failures < 5) : is_circuit_broken now s = (false, s) := by
  unfold is_circuit_broken circuit_breaker_threshold
  rw [if_neg (by omega)]

theorem is_circuit_broken_open (now : ℚ) (s : CBState) (t : ℚ)
    (h5 : 5 ≤ s.circuit_breaker_failures)
    (ht : s.circuit_breaker_reset_time = some t) (hlt : now < t) :
    is_circuit_broken now s = (true, s) := by
  unfold is_circuit_broken circuit_breaker_threshold
  rw [if_pos h5, ht]
  simp only
  rw [if_neg (by exact not_le.mpr hlt)]

theorem is_circuit_broken_expired (now : ℚ) (s : CBState) (t : ℚ)
    (h5 : 5 ≤ s.circuit_breaker_failures)
    (ht : s.circuit_breaker_reset_time = some t) (hge : t ≤ now) :
    is_circuit_broken now s = (false, ⟨0, none⟩) := by
  unfold is_circuit_broken circuit_breaker_threshold
  rw [if_pos h5, ht]
  simp only
  rw [if_pos hge]

/-! ### Claim C5 -/

/-- C5: the circuit breaker is the two-state machine of the claim.  With
`P = generate_response cfg now uq chunks bt llm s` (result, new state,
provider request): in the closed state (counter < 5) a context-bearing
call that finally fails increments the counter (setting
`reset_at = now + 60` exactly when it reaches 5, keeping no reset time
below 5) and a successful call resets the counter to 0, the provider being
contacted in both cases; while open (reset time `t` set) with `now < t`
every call is rejected with the state unchanged and the provider not
contacted; the first call with `now ≥ t` closes the breaker (reset time
cleared, counter restarted from 0) and is attempted rather than rejected;
and the state invariant is preserved. -/
theorem circuit_breaker_state_machine (cfg : GenConfig) (now : ℚ)
    (uq bt : String) (chunks : List Chunk) (llm : Option LlmSuccess)
    (s : CBState) (hinv : CBInv s) :
    (s.circuit_breaker_failures < 5 → chunks ≠ [] →
      (llm = none →
        (∃ e, (generate_response cfg now uq chunks bt llm s).1 = Except.error e) ∧
        (generate_response cfg now uq chunks bt llm s).2.1.circuit_breaker_failures
          = s.circuit_breaker_failures + 1 ∧
        (s.circuit_breaker_failures + 1 = 5 →
          (generate_response cfg now uq chunks bt llm s).2.1.circuit_breaker_reset_time
            = some (now + 60)) ∧
        (s.circuit_breaker_failures + 1 < 5 →
          (generate_response cfg now uq chunks bt llm s).2.1.circuit_breaker_reset_time
            = none) ∧
        (generate_response cfg now uq chunks bt llm s).2.2.isSome) ∧
      (∀ ok, llm = some ok →
        (∃ r, (generate_response cfg now uq chunks bt llm s).1 = Except.ok r) ∧
        (generate_response cfg now uq chunks bt llm s).2.1.circuit_breaker_failures
          = 0 ∧
        (generate_response cfg now uq chunks bt llm s).2.2.isSome)) ∧
    (s.circuit_breaker_failures < 5 → chunks = [] →
      (generate_response cfg now uq chunks bt llm s)
        = (Except.ok insufficient_context_response, s, none)) ∧
    (∀ t, s.circuit_breaker_reset_time = some t → now < t →
      (∃ e, (generate_response cfg now uq chunks bt llm s).1 = Except.error e) ∧
      (generate_response cfg now uq chunks bt llm s).2.1 = s ∧
      (generate_response cfg now uq chunks bt llm s).2.2 = none) ∧
    (∀ t, s.circuit_breaker_reset_time = some t → t ≤ now →
      (generate_response cfg now uq chunks bt llm s).2.1.circuit_breaker_reset_time
        = none ∧
      (generate_response cfg now uq chunks bt llm s).2.1.circuit_breaker_failures
        ≤ 1 ∧
      (chunks ≠ [] → (generate_response cfg now uq chunks bt llm s).2.2.isSome) ∧
      (chunks = [] →
        ∃ r, (generate_response cfg now uq chunks bt llm s).1 = Except.ok r)) ∧
    CBInv (generate_response cfg now uq chunks bt llm s).2.1 := by
  obtain ⟨hle, hiff⟩ := hinv
  by_cases h5 : s.circuit_breaker_failures < 5
  · -- closed state: no reset time is set
    have hrt : s.circuit_breaker_reset_time = none := by
      rcases hx : s.circuit_breaker_reset_time with _ | t
      · rfl
      · exact absurd (hiff.mp (by rw [hx]; rfl)) (by omega)
    have hchk := is_circuit_broken_closed now s h5
    refine ⟨?_, ?_, ?_, ?_, ?_⟩
    · intro _ hch
      constructor
      · intro hllm
        subst hllm
        have hres : (generate_response cfg now uq chunks bt none s).1
            = Except.error "API error after 3 attempts" := by
          simp [generate_response, hchk, hch]
        have hs' : (generate_response cfg now uq chunks bt none s).2.1
            = increment_circuit_breaker now s := by
          simp [generate_response, hchk, hch]
        have hreq : (generate_response cfg now uq chunks bt none s).2.2.isSome := by
          simp [generate_response, hchk, hch]
        refine ⟨⟨_, hres⟩, ?_, ?_, ?_, hreq⟩
        · rw [hs']
          unfold increment_circuit_breaker circuit_breaker_threshold
          dsimp only
          split <;> rfl
        · intro h15
          rw [hs']
          unfold increment_circuit_breaker circuit_breaker_threshold
          dsimp only
          rw [if_pos (by omega)]
        · intro h15
          rw [hs']
          unfold increment_circuit_breaker circuit_breaker_threshold
          dsimp only
          rw [if_neg (by omega)]
          exact hrt
      · intro ok hllm
        subst hllm
        have hres : (generate_response cfg now uq chunks bt (some ok) s).1
            = Except.ok
              { response_text := pyStrip ok.text
              , generation_params :=
                { model := cfg.model_name
                , temperature := cfg.temperature
                , max_tokens := cfg.max_tokens
                , system_prompt_version := "v1.0"
                , prompt_token_count := ok.prompt_token_count
                , completion_token_count := ok.candidates_token_count }
              , latency_ms := ok.latency_ms } := by
          simp [generate_response, hchk, hch]
        have hs' : (generate_response cfg now uq chunks bt (some ok) s).2.1
            = { s with circuit_breaker_failures := 0 } := by
          simp [generate_response, hchk, hch]
        have hreq : (generate_response cfg now uq chunks bt (some ok) s).2.2.isSome := by
          simp [generate_response, hchk, hch]
        exact ⟨⟨_, hres⟩, by rw [hs'], hreq⟩
    · intro _ hch
      subst hch
      simp [generate_response, hchk]
    · intro t ht
      rw [hrt] at ht
      exact absurd ht (by simp)
    · intro t ht
      rw [hrt] at ht
      exact absurd ht (by simp)
    · by_cases hch : chunks = []
      · subst hch
        have hs' : (generate_response cfg now uq [] bt llm s).2.1 = s := by
          simp [generate_response, hchk]
        rw [hs']
        exact ⟨hle, hiff⟩
      · rcases llm with _ | ok
        · have hs' : (generate_response cfg now uq chunks bt none s).2.1
              = increment_circuit_breaker now s := by
            simp [generate_response, hchk, hch]
          rw [hs']
          unfold increment_circuit_breaker circuit_breaker_threshold
          dsimp only
          by_cases hfull : 5 ≤ s.circuit_breaker_failures + 1
          · rw [if_pos hfull]
            refine ⟨?_, ?_⟩
            · show s.circuit_breaker_failures + 1 ≤ 5
              omega
            · show (some (now + 60)).isSome ↔ s.circuit_breaker_failures + 1 = 5
              simp only [Option.isSome_some, true_iff]
              omega
          · rw [if_neg hfull]
            refine ⟨?_, ?_⟩
            · show s.circuit_breaker_failures + 1 ≤ 5
              omega
            · show s.circuit_breaker_reset_time.isSome
                ↔ s.circuit_breaker_failures + 1 = 5
              rw [hrt]
              simp only [Option.isSome_none, Bool.false_eq_true, false_iff]
              omega
        · have hs' : (generate_response cfg now uq chunks bt (some ok) s).2.1
              = { s with circuit_breaker_failures := 0 } := by
            simp [generate_response, hchk, hch]
          rw [hs']
          refine ⟨?_, ?_⟩
          · show (0 : ℕ) ≤ 5
            omega
          · show s.circuit_breaker_reset_time.isSome ↔ (0 : ℕ) = 5
            rw [hrt]
            simp
  · -- open state: the counter is exactly 5 and a reset time is set
    have h5' : s.circuit_breaker_failures = 5 := by omega
    have hsome : s.circuit_breaker_reset_time.isSome := hiff.mpr h5'
    rcases hx : s.circuit_breaker_reset_time with _ | t0
    · rw [hx] at hsome
      simp at hsome
    · by_cases htime : now < t0
      · have hchk := is_circuit_broken_open now s t0 (by omega) hx htime
        refine ⟨fun hlt => absurd hlt (by omega),
          fun hlt => absurd hlt (by omega), ?_, ?_, ?_⟩
        · intro t ht hlt
          have h1 : (generate_response cfg now uq chunks bt llm s).1
              = Except.error "Circuit breaker open: Too many consecutive failures. Please try again later." := by
            simp [generate_response, hchk]
          have h2 : (generate_response cfg now uq chunks bt llm s).2.1 = s := by
            simp [generate_response, hchk]
          have h3 : (generate_response cfg now uq chunks bt llm s).2.2 = none := by
            simp [generate_response, hchk]
          exact ⟨⟨_, h1⟩, h2, h3⟩
        · intro t ht hge
          injection ht with heq
          subst heq
          exact absurd hge (not_le.mpr htime)
        · have h2 : (generate_response cfg now uq chunks bt llm s).2.1 = s := by
            simp [generate_response, hchk]
          rw [h2]
          exact ⟨hle, hiff⟩
      · have hchk := is_circuit_broken_expired now s t0 (by omega) hx (not_lt.mp htime)
        refine ⟨fun hlt => absurd hlt (by omega),
          fun hlt => absurd hlt (by omega), ?_, ?_, ?_⟩
        · intro t ht hlt
          injection ht with heq
          subst heq
          exact absurd hlt htime
        · intro t ht hge
          by_cases hch : chunks = []
          · subst hch
            have h1 : (generate_response cfg now uq [] bt llm s).1
                = Except.ok insufficient_context_response := by
              simp [generate_response, hchk]
            have h2 : (generate_response cfg now uq [] bt llm s).2.1
                = (⟨0, none⟩ : CBState) := by
              simp [generate_response, hchk]
            refine ⟨by rw [h2], ?_, fun hne => absurd rfl hne, fun _ => ⟨_, h1⟩⟩
            rw [h2]
            exact Nat.zero_le _
          · rcases llm with _ | ok
            · have h2 : (generate_response cfg now uq chunks bt none s).2.1
                  = increment_circuit_breaker now (⟨0, none⟩ : CBState) := by
                simp [generate_response, hchk, hch]
              have h3 : (generate_response cfg now uq chunks bt none s).2.2.isSome := by
                simp [generate_response, hchk, hch]
              refine ⟨?_, ?_, fun _ => h3, fun hcon => absurd hcon hch⟩
              · rw [h2]
                unfold increment_circuit_breaker circuit_breaker_threshold
                dsimp only
                rw [if_neg (by decide)]
              · rw [h2]
                unfold increment_circuit_breaker circuit_breaker_threshold
                dsimp only
                rw [if_neg (by decide)]
            · have h2 : (generate_response cfg now uq chunks bt (some ok) s).2.1
                  = (⟨0, none⟩ : CBState) := by
                simp [generate_response, hchk, hch]
              have h3 : (generate_response cfg now uq chunks bt
                  (some ok) s).2.2.isSome := by
                simp [generate_response, hchk, hch]
              refine ⟨by rw [h2], ?_, fun _ => h3, fun hcon => absurd hcon hch⟩
              rw [h2]
              exact Nat.zero_le _
        · by_cases hch : chunks = []
          · subst hch
            have h2 : (generate_response cfg now uq [] bt llm s).2.1
                = (⟨0, none⟩ : CBState) := by
              simp [generate_response, hchk]
            rw [h2]
            refine ⟨Nat.zero_le _, ?_⟩
            show (none : Option ℚ).isSome ↔ (0 : ℕ) = 5
            simp
          · rcases llm with _ | ok
            · have h2 : (generate_response cfg now uq chunks bt none s).2.1
                  = increment_circuit_breaker now (⟨0, none⟩ : CBState) := by
                simp [generate_response, hchk, hch]
              rw [h2]
              unfold increment_circuit_breaker circuit_breaker_threshold
              dsimp only
              rw [if_neg (by decide)]
              refine ⟨?_, ?_⟩
              · show (0 : ℕ) + 1 ≤ 5
                omega
              · show (none : Option ℚ).isSome ↔ (0 : ℕ) + 1 = 5
                simp
            · have h2 : (generate_response cfg now uq chunks bt (some ok) s).2.1
                  = (⟨0, none⟩ : CBState) := by
                simp [generate_response, hchk, hch]
              rw [h2]
              refine ⟨Nat.zero_le _, ?_⟩
              show (none : Option ℚ).isSome ↔ (0 : ℕ) = 5
              simp

/-- C5 witness: the state machine at a concrete closed state `(3, -)` with
a failing context-bearing call. -/
theorem circuit_breaker_state_machine_witness :
    CBInv ⟨3, none⟩ ∧
    ((3 : ℕ) < 5 →
      [({ id := "c1", score := 1
        , payload := ⟨none, none, none, none, none, none⟩ } : Chunk)] ≠ [] →
      ((none : Option LlmSuccess) = none →
        (∃ e, (generate_response ⟨"gemini-2.5-flash", 500, 0⟩ 0 "q"
          [{ id := "c1", score := 1, payload := ⟨none, none, none, none, none, none⟩ }]
          "b" none ⟨3, none⟩).1 = Except.error e) ∧
        (generate_response ⟨"gemini-2.5-flash", 500, 0⟩ 0 "q"
          [{ id := "c1", score := 1, payload := ⟨none, none, none, none, none, none⟩ }]
          "b" none ⟨3, none⟩).2.1.circuit_breaker_failures = 3 + 1 ∧
        (3 + 1 = 5 →
          (generate_response ⟨"gemini-2.5-flash", 500, 0⟩ 0 "q"
            [{ id := "c1", score := 1, payload := ⟨none, none, none, none, none, none⟩ }]
            "b" none ⟨3, none⟩).2.1.circuit_breaker_reset_time = some (0 + 60)) ∧
        (3 + 1 < 5 →
          (generate_response ⟨"gemini-2.5-flash", 500, 0⟩ 0 "q"
            [{ id := "c1", score := 1, payload := ⟨none, none, none, none, none, none⟩ }]
            "b" none ⟨3, none⟩).2.1.circuit_breaker_reset_time = none) ∧
        (generate_response ⟨"gemini-2.5-flash", 500, 0⟩ 0 "q"
          [{ id := "c1", score := 1, payload := ⟨none, none, none, none, none, none⟩ }]
          "b" none ⟨3, none⟩).2.2.isSome) ∧
      (∀ ok, (none : Option LlmSuccess) = some ok →
        (∃ r, (generate_response ⟨"gemini-2.5-flash", 500, 0⟩ 0 "q"
          [{ id := "c1", score := 1, payload := ⟨none, none, none, none, none, none⟩ }]
          "b" none ⟨3, none⟩).1 = Except.ok r) ∧
        (generate_response ⟨"gemini-2.5-flash", 500, 0⟩ 0 "q"
          [{ id := "c1", score := 1, payload := ⟨none, none, none, none, none, none⟩ }]
          "b" none ⟨3, none⟩).2.1.circuit_breaker_failures = 0 ∧
        (generate_response ⟨"gemini-2.5-flash", 500, 0⟩ 0 "q"
          [{ id := "c1", score := 1, payload := ⟨none, none, none, none, none, none⟩ }]
          "b" none ⟨3, none⟩).2.2.isSome)) :=
  ⟨by constructor <;> simp [CBInv],
    ((circuit_breaker_state_machine ⟨"gemini-2.5-flash", 500, 0⟩ 0 "q" "b"
      [{ id := "c1", score := 1, payload := ⟨none, none, none, none, none, none⟩ }]
      none ⟨3, none⟩ (by constructor <;> simp [CBInv])).1)⟩

/-! ### Claim C8 -/

/-- C8: with the circuit breaker closed, `generate_response` on an empty
chunk list returns the canonical insufficient-context message without
contacting the provider, with `generation_params.model = "fallback"` and
both token counts 0. -/
theorem generate_response_empty_context (cfg : GenConfig) (now : ℚ)
    (uq bt : String) (llm : Option LlmSuccess) (s : CBState)
    (h : s.circuit_breaker_failures < 5) :
    generate_response cfg now uq [] bt llm s
      = (Except.ok insufficient_context_response, s, none) ∧
    insufficient_context_response.response_text
      = "I don\x27t have enough information in the retrieved sections to answer this question accurately. Could you try rephrasing or asking about a topic covered in the book?" ∧
    insufficient_context_response.generation_params.model = "fallback" ∧
    insufficient_context_response.generation_params.prompt_token_count = 0 ∧
    insufficient_context_response.generation_params.completion_token_count = 0 := by
  refine ⟨?_, rfl, rfl, rfl, rfl⟩
  simp [generate_response, is_circuit_broken_closed now s h]

/-- C8 witness: the empty-context short-circuit from the initial breaker
state. -/
theorem generate_response_empty_context_witness :
    (initCBState.circuit_breaker_failures < 5) ∧
    (generate_response ⟨"gemini-2.5-flash", 500, 0⟩ 0 "q" [] "b" none initCBState
      = (Except.ok insufficient_context_response, initCBState, none) ∧
    insufficient_context_response.response_text
      = "I don\x27t have enough information in the retrieved sections to answer this question accurately. Could you try rephrasing or asking about a topic covered in the book?" ∧
    insufficient_context_response.generation_params.model = "fallback" ∧
    insufficient_context_response.generation_params.prompt_token_count = 0 ∧
    insufficient_context_response.generation_params.completion_token_count = 0) :=
  ⟨by decide,
    generate_response_empty_context ⟨"gemini-2.5-flash", 500, 0⟩ 0 "q" "b" none
      initCBState (by decide)⟩

/-! ## services/embedding.py -/

/-- The request `self.client.embed(...)` is called with. -/
structure EmbedRequest where
  texts : List String
  model : String
  input_type : String
deriving DecidableEq, Repr

/-- `EmbeddingService.embed_batch`: the embed request it issues (the
response, and the retry loop around transient failures, are external);
`input_type` is hard-coded to `"search_document"`. -/
def embed_batch_request (model : String) (texts : List String) : EmbedRequest :=
  { texts := texts, model := model, input_type := "search_document" }

/-- `EmbeddingService.embed_text`: embeds one text by delegating to
`embed_batch` on the singleton list (and taking the first vector of the
response). -/
def embed_text_request (model : String) (text : String) : EmbedRequest :=
  embed_batch_request model [text]

/-! ### Claim C9 -/

/-- C9 (code bug): the query-embedding path (`embed_text`, used by
`submit_query`) sends the provider the hint `input_type =
"search_document"` — the same hard-coded value as the ingestion path —
and not the "search query" hint the claim describes. -/
theorem embed_text_sends_search_document :
    (embed_text_request "embed-english-v3.0"
        "What is Zero Moment Point used for?").input_type = "search_document" ∧
    (embed_batch_request "embed-english-v3.0" ["chunk text"]).input_type
      = "search_document" ∧
    (embed_text_request "embed-english-v3.0"
        "What is Zero Moment Point used for?").input_type ≠ "search_query" ∧
    (embed_text_request "embed-english-v3.0"
        "What is Zero Moment Point used for?").input_type ≠ "search query" :=
  ⟨rfl, rfl, by decide, by decide⟩

/-! ## models/config.py and services/retrieval.py -/

/-- The settings fields the query pipeline reads
(`models/config.py`). -/
structure Settings where
  top_k_retrieval : ℤ
  similarity_threshold : ℚ
  rate_limit_per_hour : ℕ
deriving DecidableEq, Repr

/-- The defaults of `models/config.py`: `top_k_retrieval = 5`,
`similarity_threshold = 0.7`, `rate_limit_per_hour = 60`. -/
def defaultSettings : Settings := ⟨5, 7/10, 60⟩

/-- Python `x or default` for an optional int (`None` and `0` are falsy). -/
def pyOrInt (x : Option ℤ) (default : ℤ) : ℤ :=
  match x with
  | none => default
  | some v => if v = 0 then default else v

/-- Python `x or default` for an optional float (`None` and `0.0` are
falsy). -/
def pyOrRat (x : Option ℚ) (default : ℚ) : ℚ :=
  match x with
  | none => default
  | some v => if v = 0 then default else v

/-- The fields of `RetrievalService`. -/
structure RetrievalState where
  top_k : ℤ
  similarity_threshold : ℚ
deriving DecidableEq, Repr

/-- `RetrievalService.__init__`: `top_k or settings.top_k_retrieval`,
`similarity_threshold or settings.similarity_threshold`. -/
def retrieval_init (st : Settings) (top_k : Option ℤ)
    (similarity_threshold : Option ℚ) : RetrievalState :=
  { top_k := pyOrInt top_k st.top_k_retrieval
  , similarity_threshold := pyOrRat similarity_threshold st.similarity_threshold }

/-- One clause of the Qdrant `must` filter. -/
inductive FilterCond where
  | bookId (value : String)
  | chapterNumber (value : ℤ)
deriving DecidableEq, Repr

/-- The arguments `qdrant_client.search` is invoked with. -/
structure SearchCall where
  query_vector : List ℚ
  top_k : ℤ
  score_threshold : ℚ
  filter_conditions : Option (List FilterCond)
deriving DecidableEq, Repr

/-- `RetrievalService.retrieve_chunks`: the per-call overrides are
combined with Python `or` (`top_k or self.top_k`,
`similarity_threshold or self.similarity_threshold`), the filter clauses
are added under the same truthiness tests (`if book_id or chapter_number`,
`if book_id`, `if chapter_number`), and `search` is called; the search
outcome (result list or raised connectivity error) is external. -/
def retrieve_chunks (svc : RetrievalState) (query_embedding : List ℚ)
    (book_id : Option String) (chapter_number : Option ℤ)
    (top_k : Option ℤ) (similarity_threshold : Option ℚ)
    (searchOutcome : Except Unit (List Chunk)) :
    SearchCall × Except Unit (List Chunk) :=
  let k := pyOrInt top_k svc.top_k
  let threshold := pyOrRat similarity_threshold svc.similarity_threshold
  let bookTruthy : Bool := match book_id with
    | none => false
    | some b => decide (b ≠ "")
  let chapterTruthy : Bool := match chapter_number with
    | none => false
    | some n => decide (n ≠ 0)
  let filter_conditions :=
    if bookTruthy || chapterTruthy then
      some ((if bookTruthy then [FilterCond.bookId (book_id.getD "")] else [])
        ++ (if chapterTruthy then
              [FilterCond.chapterNumber (chapter_number.getD 0)]
            else []))
    else
      none
  ( { query_vector := query_embedding
    , top_k := k
    , score_threshold := threshold
    , filter_conditions := filter_conditions }
  , searchOutcome)

/-! ### Claim C10 -/

/-- C10: passing `top_k = 0` or `similarity_threshold = 0.0` to
`retrieve_chunks` does not use those values: because the overrides are
combined with Python `or`, the call behaves exactly like passing `None`
and falls back to the service values (with the configured defaults,
`top_k = 5` and threshold `0.7`); consequently, whenever the service
values are non-zero no call can make the issued search use `top_k = 0` or
threshold `0`. -/
theorem retrieve_chunks_zero_overrides_fall_back (svc : RetrievalState)
    (emb : List ℚ) (b : Option String) (ch : Option ℤ)
    (res : Except Unit (List Chunk)) :
    ((retrieve_chunks svc emb b ch (some 0) (some 0) res).1.top_k = svc.top_k ∧
     (retrieve_chunks svc emb b ch (some 0) (some 0) res).1.score_threshold
       = svc.similarity_threshold) ∧
    (retrieve_chunks svc emb b ch (some 0) (some 0) res).1
      = (retrieve_chunks svc emb b ch none none res).1 ∧
    ((retrieval_init defaultSettings none none).top_k = 5 ∧
     (retrieval_init defaultSettings none none).similarity_threshold = 7/10) ∧
    (∀ k t, svc.top_k ≠ 0 → svc.similarity_threshold ≠ 0 →
      (retrieve_chunks svc emb b ch k t res).1.top_k ≠ 0 ∧
      (retrieve_chunks svc emb b ch k t res).1.score_threshold ≠ 0) := by
  refine ⟨⟨rfl, rfl⟩, rfl, ⟨rfl, rfl⟩, ?_⟩
  intro k t hk ht
  constructor
  · show pyOrInt k svc.top_k ≠ 0
    rcases k with _ | v
    · exact hk
    · show (if v = 0 then svc.top_k else v) ≠ 0
      by_cases hv : v = 0
      · rw [if_pos hv]
        exact hk
      · rw [if_neg hv]
        exact hv
  · show pyOrRat t svc.similarity_threshold ≠ 0
    rcases t with _ | v
    · exact ht
    · show (if v = 0 then svc.similarity_threshold else v) ≠ 0
      by_cases hv : v = 0
      · rw [if_pos hv]
        exact ht
      · rw [if_neg hv]
        exact hv

/-- C10 witness: the fallback evaluated on the default-configured service
at `top_k = 0`, `similarity_threshold = 0.0`. -/
theorem retrieve_chunks_zero_overrides_fall_back_witness :
    ((retrieve_chunks (retrieval_init defaultSettings none none) [1] (some "b")
        none (some 0) (some 0) (Except.ok [])).1.top_k
      = (retrieval_init defaultSettings none none).top_k ∧
     (retrieve_chunks (retrieval_init defaultSettings none none) [1] (some "b")
        none (some 0) (some 0) (Except.ok [])).1.score_threshold
      = (retrieval_init defaultSettings none none).similarity_threshold) ∧
    (retrieve_chunks (retrieval_init defaultSettings none none) [1] (some "b")
        none (some 0) (some 0) (Except.ok [])).1
      = (retrieve_chunks (retrieval_init defaultSettings none none) [1] (some "b")
        none none none (Except.ok [])).1 ∧
    ((retrieval_init defaultSettings none none).top_k = 5 ∧
     (retrieval_init defaultSettings none none).similarity_threshold = 7/10) ∧
    (∀ k t, (retrieval_init defaultSettings none none).top_k ≠ 0 →
      (retrieval_init defaultSettings none none).similarity_threshold ≠ 0 →
      (retrieve_chunks (retrieval_init defaultSettings none none) [1] (some "b")
        none k t (Except.ok [])).1.top_k ≠ 0 ∧
      (retrieve_chunks (retrieval_init defaultSettings none none) [1] (some "b")
        none k t (Except.ok [])).1.score_threshold ≠ 0) :=
  retrieve_chunks_zero_overrides_fall_back (retrieval_init defaultSettings none none)
    [1] (some "b") none (Except.ok [])

/-! ## api/query.py -/

/-- The module-level `rate_limit_store` dict (anonymized user id →
request timestamps), as an association list. -/
abbrev RateStore := List (String × List ℚ)

/-- Dict lookup `store[u]`. -/
def storeLookup (store : RateStore) (u : String) : Option (List ℚ) :=
  match store with
  | [] => none
  | (k, v) :: rest => if k = u then some v else storeLookup rest u

/-- Dict assignment `store[u] = v` (insertion order preserved; a new key
goes to the end, as in Python). -/
def storeSet (store : RateStore) (u : String) (v : List ℚ) : RateStore :=
  match store with
  | [] => [(u, v)]
  | (k, w) :: rest =>
    if k = u then (k, v) :: rest else (k, w) :: storeSet rest u v

/-- `check_rate_limit`: prune the user's timestamps older than one hour
(strictly: entries with `t > now - 3600` are kept), reject when the
remaining count has reached `settings.rate_limit_per_hour` (the function's
own `limit_per_hour` parameter is ignored by the code), otherwise record
`now` and admit. -/
def check_rate_limit (st : Settings) (store : RateStore) (user_id : String)
    (now : ℚ) : Bool × RateStore :=
  let hour_ago := now - 3600
  let store1 :=
    match storeLookup store user_id with
    | some ts => storeSet store user_id (ts.filter fun t => hour_ago < t)
    | none => store
  let user_requests := (storeLookup store1 user_id).getD []
  if st.rate_limit_per_hour ≤ user_requests.length then
    (false, store1)
  else
    let store2 :=
      match storeLookup store1 user_id with
      | some _ => store1
      | none => storeSet store1 user_id []
    (true, storeSet store2 user_id (((storeLookup store2 user_id).getD []) ++ [now]))

/-- `models/query.py BookContext`. -/
structure BookContext where
  book_id : String
  chapter_number : Option ℤ
  page_url : Option String
deriving DecidableEq, Repr

/-- `models/query.py QueryRequest` (validation is performed by pydantic
before the handler runs). -/
structure QueryRequest where
  query : String
  selected_text : Option String
  book_context : BookContext
deriving DecidableEq, Repr

/-- `models/query.py SourceReference`.
`sectionTitle` models the field `section`. -/
structure SourceReference where
  chapter : String
  sectionTitle : Option String
  citation : String
  chunk_id : String
deriving DecidableEq, Repr

/-- `RetrievalService._format_citation`. -/
def format_citation (p : ChunkPayload) : String :=
  let chapter := chapterNumStr p.chapter_number
  let sectionTitle := p.sectionTitle.getD ""
  if sectionTitle ≠ "" then
    "Chapter " ++ chapter ++ ", " ++ sectionTitle
  else
    "Chapter " ++ chapter

/-- `RetrievalService.extract_source_references`. -/
def extract_source_references (chunks : List Chunk) : List SourceReference :=
  chunks.map fun c =>
    { chapter := chapterNumStr c.payload.chapter_number
    , sectionTitle := c.payload.sectionTitle
    , citation := format_citation c.payload
    , chunk_id := c.id }

/-- Round to the nearest integer, ties to even (Python 3 `round`). -/
def roundHalfEven (q : ℚ) : ℤ :=
  let f := ⌊q⌋
  let frac := q - f
  if frac < 1/2 then f
  else if 1/2 < frac then f + 1
  else if f % 2 = 0 then f else f + 1

/-- `round(x, 2)`. -/
def pyRound2 (q : ℚ) : ℚ := (roundHalfEven (q * 100) : ℚ) / 100

/-- `RetrievalService.calculate_confidence_score`: the mean of the
similarity scores rounded to two decimals, 0 for an empty list. -/
def calculate_confidence_score (similarity_scores : List ℚ) : ℚ :=
  if similarity_scores = [] then 0
  else pyRound2 (similarity_scores.sum / similarity_scores.length)

/-- Python `str.replace('-', ' ')` (single-character pattern). -/
def pyReplaceChar (a b : Char) (s : String) : String :=
  ⟨s.data.map fun c => if c = a then b else c⟩

/-- Python `str.title()` on the ASCII fragment: upper-case the first
letter of every alphabetic run, lower-case the rest. -/
def pyTitleAux : Bool → List Char → List Char
  | _, [] => []
  | prevCased, c :: cs =>
    if c.isAlpha then
      (if prevCased then c.toLower else c.toUpper) :: pyTitleAux true cs
    else
      c :: pyTitleAux false cs

/-- Python `str.title()`. -/
def pyTitle (s : String) : String := ⟨pyTitleAux false s.data⟩

/-- The successful JSON body of `POST /v1/query`
(`models/query.py QueryResponse`). -/
structure QueryResponseOut where
  query_id : String
  response_text : String
  source_references : List SourceReference
  confidence_score : ℚ
  latency_ms : ℕ
deriving DecidableEq, Repr

/-- The HTTP outcome of the handler: a 200 response or a raised
`HTTPException` with its status and error code. -/
inductive ApiOutcome where
  | ok (response : QueryResponseOut)
  | httpError (status : ℕ) (code : String)
deriving DecidableEq, Repr

/-- Which of the three audit inserts committed a row. -/
structure AuditWrites where
  query_row_written : Bool
  context_row_written : Bool
  response_row_written : Bool
deriving DecidableEq, Repr

/-- Which internal services the handler invoked.  `refusal_gate_called`
records calls into `RefusalDetector`: `submit_query` contains none, so the
definition below never sets it. -/
structure CallTrace where
  embed_called : Bool
  retrieval_called : Bool
  generation_called : Bool
  provider_called : Bool
  audit_attempted : Bool
  refusal_gate_called : Bool
deriving DecidableEq, Repr

/-- Everything `submit_query` leaves behind: the HTTP outcome, the
rate-limit store, the circuit-breaker state, the audit rows written, and
the call trace. -/
structure SubmitResult where
  outcome : ApiOutcome
  store : RateStore
  cb : CBState
  audit_rows : AuditWrites
  trace : CallTrace
deriving DecidableEq, Repr

/-- Hexadecimal digit (ASCII). -/
def isHexDigitChar (c : Char) : Bool :=
  c.isDigit ∨ ('a' ≤ c ∧ c ≤ 'f') ∨ ('A' ≤ c ∧ c ≤ 'F')

/-- The UUID-string coercion pydantic performs for
`SourceReference.chunk_id` (and that `UUID(chunk['id'])` performs in
`_log_retrieved_context`): optional `urn:`/`uuid:` markers and surrounding
braces are stripped, hyphens are dropped, and exactly 32 hexadecimal
digits must remain. -/
def is_valid_uuid (s : String) : Bool :=
  let t := removeAll "uuid:".data (removeAll "urn:".data s.data)
  let t := ((t.dropWhile fun c => c = '\x7b' ∨ c = '\x7d').reverse.dropWhile
    fun c => c = '\x7b' ∨ c = '\x7d').reverse
  let t := t.filter fun c => c ≠ '-'
  decide (t.length = 32) && t.all isHexDigitChar

/-- `submit_query` (`api/query.py`).  External effects are parameters:
`now` (wall clock), the pre-assigned `query_id` (`uuid4()`), the
anonymized `user_id`, the embedding outcome, the Qdrant search outcome,
the abstract LLM outcome, the measured `latency_ms`, and whether each of
the three audit inserts succeeds (`audit`; each insert is wrapped in its
own try/except whose failure is only logged).  The handler checks the
rate limit, embeds, retrieves (with the service defaults), generates
(via `generate_response`, including its circuit breaker), extracts source
references, computes the confidence score, attempts the three audit
writes, and returns the response; each failure maps to the corresponding
HTTP error.  The two response-side pydantic validations are modelled: the
`SourceReference(**ref)` construction coerces each `chunk_id` to a UUID
before the audit writes, and the final `QueryResponse(...)` bounds
`response_text` to 50..2000 characters and `confidence_score` to 0..1
after them; either `ValidationError` is caught by the handler's catch-all
and becomes 500 INTERNAL_ERROR.  No step consults `RefusalDetector`. -/
def submit_query (st : Settings) (cfg : GenConfig) (store : RateStore)
    (user_id query_id : String) (now : ℚ) (latency_ms : ℕ)
    (req : QueryRequest)
    (embedOutcome : Except Unit (List ℚ))
    (searchOutcome : Except Unit (List Chunk))
    (llm : Option LlmSuccess) (cb : CBState)
    (audit : Bool × Bool × Bool) : SubmitResult :=
  let rl := check_rate_limit st store user_id now
  if ¬ rl.1 then
    { outcome := ApiOutcome.httpError 429 "RATE_LIMIT_EXCEEDED"
    , store := rl.2, cb := cb
    , audit_rows := ⟨false, false, false⟩
    , trace := ⟨false, false, false, false, false, false⟩ }
  else
    match embedOutcome with
    | Except.error _ =>
      { outcome := ApiOutcome.httpError 503 "EMBEDDING_FAILED"
      , store := rl.2, cb := cb
      , audit_rows := ⟨false, false, false⟩
      , trace := ⟨true, false, false, false, false, false⟩ }
    | Except.ok query_embedding =>
      let retr := retrieve_chunks (retrieval_init st none none) query_embedding
        (some req.book_context.book_id) req.book_context.chapter_number
        none none searchOutcome
      match retr.2 with
      | Except.error _ =>
        { outcome := ApiOutcome.httpError 503 "RETRIEVAL_FAILED"
        , store := rl.2, cb := cb
        , audit_rows := ⟨false, false, false⟩
        , trace := ⟨true, true, false, false, false, false⟩ }
      | Except.ok retrieved_chunks =>
        let similarity_scores := retrieved_chunks.map Chunk.score
        let book_title := pyTitle (pyReplaceChar '-' ' ' req.book_context.book_id)
        let gen := generate_response cfg now req.query retrieved_chunks book_title
          llm cb
        match gen.1 with
        | Except.error _ =>
          { outcome := ApiOutcome.httpError 503 "GENERATION_FAILED"
          , store := rl.2, cb := gen.2.1
          , audit_rows := ⟨false, false, false⟩
          , trace := ⟨true, true, true, gen.2.2.isSome, false, false⟩ }
        | Except.ok generation_result =>
          -- `[SourceReference(**ref) for ref in ...]`: pydantic coerces each
          -- chunk_id to UUID; a malformed id raises ValidationError, mapped
          -- by the catch-all to 500 INTERNAL_ERROR before any audit write
          if retrieved_chunks.all fun c => is_valid_uuid c.id then
            let confidence_score := calculate_confidence_score similarity_scores
            -- the three audit writes run here (each failure swallowed); then
            -- `QueryResponse(...)` validates response_text length 50..2000
            -- and confidence_score 0..1: ValidationError again becomes 500
            if 50 ≤ generation_result.response_text.length ∧
                generation_result.response_text.length ≤ 2000 ∧
                0 ≤ confidence_score ∧ confidence_score ≤ 1 then
              { outcome := ApiOutcome.ok
                  { query_id := query_id
                  , response_text := generation_result.response_text
                  , source_references := extract_source_references retrieved_chunks
                  , confidence_score := confidence_score
                  , latency_ms := latency_ms }
              , store := rl.2, cb := gen.2.1
              , audit_rows := ⟨audit.1, audit.2.1, audit.2.2⟩
              , trace := ⟨true, true, true, gen.2.2.isSome, true, false⟩ }
            else
              { outcome := ApiOutcome.httpError 500 "INTERNAL_ERROR"
              , store := rl.2, cb := gen.2.1
              , audit_rows := ⟨audit.1, audit.2.1, audit.2.2⟩
              , trace := ⟨true, true, true, gen.2.2.isSome, true, false⟩ }
          else
            { outcome := ApiOutcome.httpError 500 "INTERNAL_ERROR"
            , store := rl.2, cb := gen.2.1
            , audit_rows := ⟨false, false, false⟩
            , trace := ⟨true, true, true, gen.2.2.isSome, false, false⟩ }

theorem storeLookup_storeSet_self (u : String) (v : List ℚ) :
    ∀ store : RateStore, storeLookup (storeSet store u v) u = some v
  | [] => by simp [storeSet, storeLookup]
  | (k, w) :: rest => by
    by_cases hk : k = u
    · simp [storeSet, storeLookup, hk]
    · simp [storeSet, storeLookup, hk, storeLookup_storeSet_self u v rest]

/-! ### Claim C6 -/

/-- C6: on each request the rate limiter first drops the user's stored
timestamps older than `now - 3600`, rejects when the remaining count has
reached the configured hourly limit (default 60 in `defaultSettings`) and
otherwise appends `now` and admits; a rejected request makes
`submit_query` return HTTP 429 with code `RATE_LIMIT_EXCEEDED` with no
embedding, retrieval, generation, provider or audit call and the circuit
breaker untouched. -/
theorem rate_limiter_and_429 (st : Settings) (cfg : GenConfig)
    (store : RateStore) (user_id query_id : String) (now : ℚ) (latency_ms : ℕ)
    (req : QueryRequest) (embedOutcome : Except Unit (List ℚ))
    (searchOutcome : Except Unit (List Chunk)) (llm : Option LlmSuccess)
    (cb : CBState) (audit : Bool × Bool × Bool) :
    (((check_rate_limit st store user_id now).1 = true ↔
        ((((storeLookup store user_id).getD []).filter
          fun t => now - 3600 < t).length < st.rate_limit_per_hour)) ∧
     ((check_rate_limit st store user_id now).1 = true →
        storeLookup (check_rate_limit st store user_id now).2 user_id
          = some ((((storeLookup store user_id).getD []).filter
              fun t => now - 3600 < t) ++ [now])) ∧
     ((check_rate_limit st store user_id now).1 = false →
        ((storeLookup (check_rate_limit st store user_id now).2 user_id).getD [])
          = ((storeLookup store user_id).getD []).filter
              fun t => now - 3600 < t)) ∧
    (defaultSettings.rate_limit_per_hour = 60) ∧
    ((check_rate_limit st store user_id now).1 = false →
      submit_query st cfg store user_id query_id now latency_ms req embedOutcome
          searchOutcome llm cb audit
        = { outcome := ApiOutcome.httpError 429 "RATE_LIMIT_EXCEEDED"
          , store := (check_rate_limit st store user_id now).2
          , cb := cb
          , audit_rows := ⟨false, false, false⟩
          , trace := ⟨false, false, false, false, false, false⟩ }) := by
  refine ⟨?_, rfl, ?_⟩
  · rcases hlk : storeLookup store user_id with _ | ts
    · by_cases hlim : st.rate_limit_per_hour ≤ 0
      · have hres : check_rate_limit st store user_id now = (false, store) := by
          unfold check_rate_limit
          rw [hlk]
          dsimp only
          rw [hlk]
          dsimp only [Option.getD]
          rw [if_pos (by simpa using hlim)]
        rw [hres]
        dsimp only
        refine ⟨?_, ?_, ?_⟩
        · simp
          try omega
        · intro hcon
          simp at hcon
        · intro _
          rw [hlk]
          simp
      · have hres : check_rate_limit st store user_id now
            = (true, storeSet (storeSet store user_id []) user_id
                (((storeLookup (storeSet store user_id [])
                  user_id).getD []) ++ [now])) := by
          unfold check_rate_limit
          rw [hlk]
          dsimp only
          rw [hlk]
          dsimp only [Option.getD]
          rw [if_neg (by simpa using hlim)]
        rw [hres]
        dsimp only
        refine ⟨?_, ?_, ?_⟩
        · simp
          try omega
        · intro _
          rw [storeLookup_storeSet_self, storeLookup_storeSet_self]
          simp
        · intro hcon
          simp at hcon
    · by_cases hlim : st.rate_limit_per_hour
          ≤ (ts.filter fun t => now - 3600 < t).length
      · have hres : check_rate_limit st store user_id now
            = (false, storeSet store user_id
                (ts.filter fun t => now - 3600 < t)) := by
          unfold check_rate_limit
          rw [hlk]
          dsimp only
          rw [storeLookup_storeSet_self]
          dsimp only [Option.getD]
          rw [if_pos hlim]
        rw [hres]
        dsimp only
        refine ⟨?_, ?_, ?_⟩
        · simp
          try omega
        · intro hcon
          simp at hcon
        · intro _
          rw [storeLookup_storeSet_self]
          simp
      · have hres : check_rate_limit st store user_id now
            = (true, storeSet (storeSet store user_id
                  (ts.filter fun t => now - 3600 < t)) user_id
                ((ts.filter fun t => now - 3600 < t) ++ [now])) := by
          unfold check_rate_limit
          rw [hlk]
          dsimp only
          rw [storeLookup_storeSet_self]
          dsimp only [Option.getD]
          rw [if_neg hlim]
          rw [storeLookup_storeSet_self]
        rw [hres]
        dsimp only
        refine ⟨?_, ?_, ?_⟩
        · simp
          try omega
        · intro _
          rw [storeLookup_storeSet_self]
          simp
        · intro hcon
          simp at hcon
  · intro hfalse
    unfold submit_query
    dsimp only
    rw [if_pos (by simp [hfalse])]

/-- C6 witness: the theorem applied at a concrete store in which the user
already holds one fresh timestamp against a limit of 1 (so the request is
rejected). -/
theorem rate_limiter_and_429_witness :
    (((check_rate_limit ⟨5, 7/10, 1⟩ [("u", [3])] "u" 10).1 = true ↔
        ((((storeLookup [("u", [3])] "u").getD []).filter
          fun t => (10 : ℚ) - 3600 < t).length < (⟨5, 7/10, 1⟩ : Settings).rate_limit_per_hour)) ∧
     ((check_rate_limit ⟨5, 7/10, 1⟩ [("u", [3])] "u" 10).1 = true →
        storeLookup (check_rate_limit ⟨5, 7/10, 1⟩ [("u", [3])] "u" 10).2 "u"
          = some ((((storeLookup [("u", [3])] "u").getD []).filter
              fun t => (10 : ℚ) - 3600 < t) ++ [10])) ∧
     ((check_rate_limit ⟨5, 7/10, 1⟩ [("u", [3])] "u" 10).1 = false →
        ((storeLookup (check_rate_limit ⟨5, 7/10, 1⟩ [("u", [3])] "u" 10).2 "u").getD [])
          = ((storeLookup [("u", [3])] "u").getD []).filter
              fun t => (10 : ℚ) - 3600 < t)) ∧
    (defaultSettings.rate_limit_per_hour = 60) ∧
    ((check_rate_limit ⟨5, 7/10, 1⟩ [("u", [3])] "u" 10).1 = false →
      submit_query ⟨5, 7/10, 1⟩ ⟨"m", 500, 0⟩ [("u", [3])] "u" "q1" 10 5
          ⟨"What is ZMP?", none, ⟨"b", none, none⟩⟩ (Except.ok [1]) (Except.ok [])
          none initCBState (true, true, true)
        = { outcome := ApiOutcome.httpError 429 "RATE_LIMIT_EXCEEDED"
          , store := (check_rate_limit ⟨5, 7/10, 1⟩ [("u", [3])] "u" 10).2
          , cb := initCBState
          , audit_rows := ⟨false, false, false⟩
          , trace := ⟨false, false, false, false, false, false⟩ }) :=
  rate_limiter_and_429 ⟨5, 7/10, 1⟩ ⟨"m", 500, 0⟩ [("u", [3])] "u" "q1" 10 5
    ⟨"What is ZMP?", none, ⟨"b", none, none⟩⟩ (Except.ok [1]) (Except.ok [])
    none initCBState (true, true, true)

/-! ### Claim C7 -/

/-- C7: a failure of any of the three audit writes (each wrapped in its
own try/except whose failure is only logged) never changes the handler's
result: the HTTP outcome, rate-limit store, circuit-breaker state and
call trace equal those of the run where all three writes succeed; only
the set of committed audit rows differs. -/
theorem audit_failures_never_change_response (st : Settings) (cfg : GenConfig)
    (store : RateStore) (user_id query_id : String) (now : ℚ) (latency_ms : ℕ)
    (req : QueryRequest) (embedOutcome : Except Unit (List ℚ))
    (searchOutcome : Except Unit (List Chunk)) (llm : Option LlmSuccess)
    (cb : CBState) (a b c : Bool) :
    (submit_query st cfg store user_id query_id now latency_ms req embedOutcome
        searchOutcome llm cb (a, b, c)).outcome
      = (submit_query st cfg store user_id query_id now latency_ms req
          embedOutcome searchOutcome llm cb (true, true, true)).outcome ∧
    (submit_query st cfg store user_id query_id now latency_ms req embedOutcome
        searchOutcome llm cb (a, b, c)).store
      = (submit_query st cfg store user_id query_id now latency_ms req
          embedOutcome searchOutcome llm cb (true, true, true)).store ∧
    (submit_query st cfg store user_id query_id now latency_ms req embedOutcome
        searchOutcome llm cb (a, b, c)).cb
      = (submit_query st cfg store user_id query_id now latency_ms req
          embedOutcome searchOutcome llm cb (true, true, true)).cb ∧
    (submit_query st cfg store user_id query_id now latency_ms req embedOutcome
        searchOutcome llm cb (a, b, c)).trace
      = (submit_query st cfg store user_id query_id now latency_ms req
          embedOutcome searchOutcome llm cb (true, true, true)).trace := by
  unfold submit_query
  refine ⟨?_, ?_, ?_, ?_⟩ <;> (dsimp only; (repeat' split) <;> rfl)

/-! ### Claim C1 -/

/-- A retrieved chunk whose similarity 0.65 lies below the 0.7 threshold
(the spec's pre-LLM refusal scenario); its id is a well-formed UUID, so
the response-side validations pass. -/
def lowSimChunk : Chunk :=
  { id := "550e8400-e29b-41d4-a716-446655440000", score := 13/20
  , payload :=
    { chapter := some "Module 1 - X", sectionTitle := some "ZMP"
    , section_slug := some "zmp", source_file := some "docs/chapters/x.md"
    , content := some "text", chapter_number := some 1 } }

/-- A stub LLM answer for the same scenario, long enough (95 characters)
to pass the response-length validation. -/
def stubLlmAnswer : LlmSuccess :=
  ⟨"This passage is about locomotion control, so I will summarize it instead of refusing to answer.", 10, 20, 7⟩

/-- The response of a 200 outcome, `none` for an error outcome. -/
def okResponse : ApiOutcome → Option QueryResponseOut
  | ApiOutcome.ok r => some r
  | ApiOutcome.httpError _ _ => none

/-- C1 (code bug): `submit_query` never invokes the pre-LLM refusal gate.
On the spec's own scenario — retrieval surfaces one chunk with similarity
0.65 against threshold 0.7, where `should_force_refusal` demands a
refusal — the orchestrator still invokes the generator (and the LLM
provider) and, with a validation-passing chunk id and answer length,
returns 200 with the LLM's text and a non-empty `source_references` list
instead of the canned low-similarity refusal; no step consults
`RefusalDetector` and the response carries no refusal marking.  (With a
non-UUID chunk id the same run instead ends in the handler's catch-all as
500 INTERNAL_ERROR before the audit writes — still no refusal.) -/
theorem submit_query_skips_refusal_gate :
    should_force_refusal [13/20] defaultSettings.similarity_threshold = true ∧
    (submit_query defaultSettings ⟨"gemini-2.5-flash", 500, 0⟩ [] "u" "q1" 0 5
        ⟨"What is ZMP?", none, ⟨"physical-ai-robotics", none, none⟩⟩
        (Except.ok [1]) (Except.ok [lowSimChunk]) (some stubLlmAnswer)
        initCBState (true, true, true)).trace
      = ⟨true, true, true, true, true, false⟩ ∧
    (okResponse (submit_query defaultSettings ⟨"gemini-2.5-flash", 500, 0⟩ [] "u"
        "q1" 0 5 ⟨"What is ZMP?", none, ⟨"physical-ai-robotics", none, none⟩⟩
        (Except.ok [1]) (Except.ok [lowSimChunk]) (some stubLlmAnswer)
        initCBState (true, true, true)).outcome).map QueryResponseOut.response_text
      = some "This passage is about locomotion control, so I will summarize it instead of refusing to answer." ∧
    (okResponse (submit_query defaultSettings ⟨"gemini-2.5-flash", 500, 0⟩ [] "u"
        "q1" 0 5 ⟨"What is ZMP?", none, ⟨"physical-ai-robotics", none, none⟩⟩
        (Except.ok [1]) (Except.ok [lowSimChunk]) (some stubLlmAnswer)
        initCBState (true, true, true)).outcome).map
        QueryResponseOut.source_references
      = some [{ chapter := "1", sectionTitle := some "ZMP"
              , citation := "Chapter 1, ZMP"
              , chunk_id := "550e8400-e29b-41d4-a716-446655440000" }] ∧
    "This passage is about locomotion control, so I will summarize it instead of refusing to answer."
      ≠ build_refusal_message "book-wide" "low_similarity" ∧
    ((submit_query defaultSettings ⟨"gemini-2.5-flash", 500, 0⟩ [] "u" "q1" 0 5
        ⟨"What is ZMP?", none, ⟨"physical-ai-robotics", none, none⟩⟩
        (Except.ok [1])
        (Except.ok [{ id := "c-low", score := 13/20
                    , payload :=
                      { chapter := some "Module 1 - X", sectionTitle := some "ZMP"
                      , section_slug := some "zmp"
                      , source_file := some "docs/chapters/x.md"
                      , content := some "text", chapter_number := some 1 } }])
        (some stubLlmAnswer) initCBState (true, true, true)).outcome
      = ApiOutcome.httpError 500 "INTERNAL_ERROR" ∧
     (submit_query defaultSettings ⟨"gemini-2.5-flash", 500, 0⟩ [] "u" "q1" 0 5
        ⟨"What is ZMP?", none, ⟨"physical-ai-robotics", none, none⟩⟩
        (Except.ok [1])
        (Except.ok [{ id := "c-low", score := 13/20
                    , payload :=
                      { chapter := some "Module 1 - X", sectionTitle := some "ZMP"
                      , section_slug := some "zmp"
                      , source_file := some "docs/chapters/x.md"
                      , content := some "text", chapter_number := some 1 } }])
        (some stubLlmAnswer) initCBState (true, true, true)).audit_rows
      = ⟨false, false, false⟩) := by
  have hconf : calculate_confidence_score (List.map Chunk.score [lowSimChunk])
      = 13/20 := by
    show calculate_confidence_score [(13 : ℚ)/20] = 13/20
    unfold calculate_confidence_score
    rw [if_neg (by simp)]
    unfold pyRound2
    have h1 : List.sum [(13 : ℚ)/20] / ((List.length [(13 : ℚ)/20] : ℕ) : ℚ) * 100
        = 65 := by
      simp only [List.sum_cons, List.sum_nil, List.length_cons, List.length_nil]
      norm_num
    rw [h1]
    have h2 : roundHalfEven 65 = 65 := by
      unfold roundHalfEven
      norm_num
    rw [h2]
    norm_num
  have hvalid : 50 ≤ (pyStrip stubLlmAnswer.text).length ∧
      (pyStrip stubLlmAnswer.text).length ≤ 2000 ∧
      0 ≤ calculate_confidence_score (List.map Chunk.score [lowSimChunk]) ∧
      calculate_confidence_score (List.map Chunk.score [lowSimChunk]) ≤ 1 := by
    rw [hconf]
    refine ⟨by decide, by decide, by norm_num, by norm_num⟩
  have hmain : submit_query defaultSettings ⟨"gemini-2.5-flash", 500, 0⟩ [] "u"
      "q1" 0 5 ⟨"What is ZMP?", none, ⟨"physical-ai-robotics", none, none⟩⟩
      (Except.ok [1]) (Except.ok [lowSimChunk]) (some stubLlmAnswer) initCBState
      (true, true, true)
    = { outcome := ApiOutcome.ok
          { query_id := "q1"
          , response_text := "This passage is about locomotion control, so I will summarize it instead of refusing to answer."
          , source_references :=
            [{ chapter := "1", sectionTitle := some "ZMP"
             , citation := "Chapter 1, ZMP"
             , chunk_id := "550e8400-e29b-41d4-a716-446655440000" }]
          , confidence_score :=
              calculate_confidence_score (List.map Chunk.score [lowSimChunk])
          , latency_ms := 5 }
      , store := [("u", [0])]
      , cb := ⟨0, none⟩
      , audit_rows := ⟨true, true, true⟩
      , trace := ⟨true, true, true, true, true, false⟩ } := by
    show (if 50 ≤ (pyStrip stubLlmAnswer.text).length ∧
          (pyStrip stubLlmAnswer.text).length ≤ 2000 ∧
          0 ≤ calculate_confidence_score (List.map Chunk.score [lowSimChunk]) ∧
          calculate_confidence_score (List.map Chunk.score [lowSimChunk]) ≤ 1 then
        ({ outcome := ApiOutcome.ok
             { query_id := "q1"
             , response_text := "This passage is about locomotion control, so I will summarize it instead of refusing to answer."
             , source_references :=
               [{ chapter := "1", sectionTitle := some "ZMP"
                , citation := "Chapter 1, ZMP"
                , chunk_id := "550e8400-e29b-41d4-a716-446655440000" }]
             , confidence_score :=
                 calculate_confidence_score (List.map Chunk.score [lowSimChunk])
             , latency_ms := 5 }
         , store := [("u", [0])]
         , cb := ⟨0, none⟩
         , audit_rows := ⟨true, true, true⟩
         , trace := ⟨true, true, true, true, true, false⟩ } : SubmitResult)
      else
        ({ outcome := ApiOutcome.httpError 500 "INTERNAL_ERROR"
         , store := [("u", [0])]
         , cb := ⟨0, none⟩
         , audit_rows := ⟨true, true, true⟩
         , trace := ⟨true, true, true, true, true, false⟩ } : SubmitResult))
      = _
    rw [if_pos hvalid]
  refine ⟨?_, ?_, ?_, ?_, by decide, by decide, by decide⟩
  · unfold should_force_refusal
    rw [if_neg (by simp)]
    rw [decide_eq_true_eq]
    show (13 : ℚ)/20 < defaultSettings.similarity_threshold
    unfold defaultSettings
    norm_num
  · rw [hmain]
  · rw [hmain]
    rfl
  · rw [hmain]
    rfl

end RagBackend
